import Mathlib

/-!
Shallow embedding of the steel connection limit-state calculators in
`src/Steel/bolt.py`, `src/Steel/connected_element.py` and
`src/Steel/weld.py`.

Python floats are modelled as real numbers; `pint` quantities are modelled
as a magnitude together with a unit, where a unit carries its physical
dimension and its exact conversion factor to the canonical unit of that
dimension (inch for lengths, ksi for stresses).  `Quantity.to` mirrors
pint's `.to`: it converts when the dimensions agree and raises
(`Except.error`) a dimensionality error otherwise.  Python exceptions are
modelled by `Except SteelError`; the `ValueError` raised on an invalid
design method is the spec's `InvalidDesignMethod`, and the
`UnboundLocalError` that `weld_rupture_strength` hits when `weld_sides`
is neither 1 nor 2 (the `if`/`elif` chain assigns `t1_min`/`t2_min` in no
other case, so `reduction_1 = part1_t / t1_min` reads an unbound local)
is modelled by `unboundLocal`.
-/

namespace Steel

/-- Physical dimensions appearing in the library's inputs. -/
inductive Dim where
  | length
  | stress
  deriving DecidableEq, Repr

/-- A unit: its dimension and its exact conversion factor to the canonical
unit of that dimension (inch for length, ksi for stress). -/
structure UnitOf where
  dim : Dim
  factor : ℝ

noncomputable section

/-- The canonical length unit. -/
def inch : UnitOf := ⟨Dim.length, 1⟩

/-- Millimeters: 1 mm = 1/25.4 inch (exact). -/
def millimeter : UnitOf := ⟨Dim.length, 10 / 254⟩

/-- Feet: 1 ft = 12 inch. -/
def foot : UnitOf := ⟨Dim.length, 12⟩

/-- The canonical stress unit. -/
def ksi : UnitOf := ⟨Dim.stress, 1⟩

/-- Pounds per square inch: 1 psi = 1/1000 ksi. -/
def psi : UnitOf := ⟨Dim.stress, 1 / 1000⟩

/-- A pint quantity: a magnitude tagged with a unit. -/
structure Quantity where
  mag : ℝ
  u : UnitOf

/-- Errors of the library, following the spec's taxonomy in §7.
`invalidWeldSides` is part of the spec's taxonomy; whether the code ever
produces it is settled by the theorems below.  `unboundLocal` models the
Python `UnboundLocalError`. -/
inductive SteelError where
  | invalidDesignMethod
  | dimensionMismatch
  | invalidWeldSides
  | unboundLocal
  deriving DecidableEq, Repr

/-- The magnitude of a quantity expressed in the canonical unit of its
dimension. -/
def Quantity.canon (q : Quantity) : ℝ := q.mag * q.u.factor

/-- pint's `.to`: convert to a target unit, failing on a dimension
mismatch. -/
def Quantity.to (q : Quantity) (t : UnitOf) : Except SteelError Quantity :=
  if q.u.dim = t.dim then
    Except.ok ⟨q.mag * q.u.factor / t.factor, t⟩
  else
    Except.error SteelError.dimensionMismatch

/-! ### src/Steel/bolt.py -/

/-- `nominal_fastener_strength(f_u)` (bolt.py lines 11–33): the pair
`(f_nv, f_nt) = (0.45·f_u, 0.75·f_u)` after converting `f_u` to ksi. -/
def nominal_fastener_strength (f_u : Quantity) : Except SteelError (ℝ × ℝ) := do
  let fu ← f_u.to ksi
  let f_nv := 0.45 * fu.mag
  let f_nt := 0.75 * fu.mag
  pure (f_nv, f_nt)

/-- `shear_strength_bolts` (bolt.py lines 36–72). -/
def shear_strength_bolts (design_method : String) (bolt_dia f_u : Quantity) :
    Except SteelError ℝ := do
  let fn ← nominal_fastener_strength f_u
  let f_nv := fn.1
  let d ← bolt_dia.to inch
  let r_n := f_nv * (Real.pi / 4) * d.mag ^ 2
  if design_method = "ASD" then
    let fos := 2.00
    pure (r_n / fos)
  else if design_method = "LRFD" then
    let str_reduction := 0.75
    pure (str_reduction * r_n)
  else
    Except.error SteelError.invalidDesignMethod

/-- `bearing_strength_bolts` (bolt.py lines 76–119). -/
def bearing_strength_bolts (design_method : String)
    (bolt_dia part1_t part1_ult part2_t part2_ult : Quantity) :
    Except SteelError (ℝ × ℝ) := do
  let d ← bolt_dia.to inch
  let t1 ← part1_t.to inch
  let t2 ← part2_t.to inch
  let u1 ← part1_ult.to ksi
  let u2 ← part2_ult.to ksi
  let r_n1 := 2.4 * d.mag * t1.mag * u1.mag
  let r_n2 := 2.4 * d.mag * t2.mag * u2.mag
  if design_method = "ASD" then
    let fos := 2.00
    pure (r_n1 / fos, r_n2 / fos)
  else if design_method = "LRFD" then
    let str_reduction := 0.75
    pure (str_reduction * r_n1, str_reduction * r_n2)
  else
    Except.error SteelError.invalidDesignMethod

/-- `tearout_strength_bolts` (bolt.py lines 122–175). -/
def tearout_strength_bolts (design_method : String)
    (bolt_dia part1_edge_dist part2_edge_dist
      part1_t part1_ult part2_t part2_ult : Quantity) :
    Except SteelError (ℝ × ℝ) := do
  let d ← bolt_dia.to inch
  let e1 ← part1_edge_dist.to inch
  let e2 ← part2_edge_dist.to inch
  let t1 ← part1_t.to inch
  let t2 ← part2_t.to inch
  let u1 ← part1_ult.to ksi
  let u2 ← part2_ult.to ksi
  let net_dist_1 := e1.mag - (d.mag + 0.125) / 2
  let net_dist_2 := e2.mag - (d.mag + 0.125) / 2
  let r_n1 := 1.2 * net_dist_1 * t1.mag * u1.mag
  let r_n2 := 1.2 * net_dist_2 * t2.mag * u2.mag
  if design_method = "ASD" then
    let fos := 2.00
    pure (r_n1 / fos, r_n2 / fos)
  else if design_method = "LRFD" then
    let str_reduction := 0.75
    pure (str_reduction * r_n1, str_reduction * r_n2)
  else
    Except.error SteelError.invalidDesignMethod

/-- `tensile_strength_bolts` (bolt.py lines 178–214). -/
def tensile_strength_bolts (design_method : String) (bolt_dia f_u : Quantity) :
    Except SteelError ℝ := do
  let fn ← nominal_fastener_strength f_u
  let f_nt := fn.2
  let d ← bolt_dia.to inch
  let r_n := f_nt * (Real.pi / 4) * d.mag ^ 2
  if design_method = "ASD" then
    let fos := 2.00
    pure (r_n / fos)
  else if design_method = "LRFD" then
    let str_reduction := 0.75
    pure (str_reduction * r_n)
  else
    Except.error SteelError.invalidDesignMethod

/-! ### src/Steel/connected_element.py -/

/-- `connected_elem_shear_yield_str` (connected_element.py lines 11–56). -/
def connected_elem_shear_yield_str (design_method : String)
    (part1_t part1_len part1_yield part2_t part2_len part2_yield : Quantity) :
    Except SteelError (ℝ × ℝ) := do
  let t1 ← part1_t.to inch
  let l1 ← part1_len.to inch
  let y1 ← part1_yield.to ksi
  let t2 ← part2_t.to inch
  let l2 ← part2_len.to inch
  let y2 ← part2_yield.to ksi
  let r_n1 := 0.60 * y1.mag * (t1.mag * l1.mag)
  let r_n2 := 0.60 * y2.mag * (t2.mag * l2.mag)
  if design_method = "ASD" then
    let fos := 1.50
    pure (r_n1 / fos, r_n2 / fos)
  else if design_method = "LRFD" then
    let str_reduction := 1.00
    pure (str_reduction * r_n1, str_reduction * r_n2)
  else
    Except.error SteelError.invalidDesignMethod

/-- `connected_elem_shear_rupture_str` (connected_element.py lines 59–116). -/
def connected_elem_shear_rupture_str (design_method : String)
    (bolt_dia : Quantity) (bolt_count : ℤ)
    (part1_t part1_len part1_ult part2_t part2_len part2_ult : Quantity) :
    Except SteelError (ℝ × ℝ) := do
  let d ← bolt_dia.to inch
  let t1 ← part1_t.to inch
  let l1 ← part1_len.to inch
  let u1 ← part1_ult.to ksi
  let t2 ← part2_t.to inch
  let l2 ← part2_len.to inch
  let u2 ← part2_ult.to ksi
  let net_width_1 := l1.mag - (d.mag + 0.063) * (bolt_count : ℝ)
  let net_width_2 := l2.mag - (d.mag + 0.063) * (bolt_count : ℝ)
  let a_nv1 := t1.mag * net_width_1
  let a_nv2 := t2.mag * net_width_2
  let r_n1 := 0.60 * u1.mag * a_nv1
  let r_n2 := 0.60 * u2.mag * a_nv2
  if design_method = "ASD" then
    let fos := 2.00
    pure (r_n1 / fos, r_n2 / fos)
  else if design_method = "LRFD" then
    let str_reduction := 0.75
    pure (str_reduction * r_n1, str_reduction * r_n2)
  else
    Except.error SteelError.invalidDesignMethod

/-- `connected_elem_tensile_yield_str` (connected_element.py lines 119–163). -/
def connected_elem_tensile_yield_str (design_method : String)
    (part1_t part1_len part1_yield part2_t part2_len part2_yield : Quantity) :
    Except SteelError (ℝ × ℝ) := do
  let t1 ← part1_t.to inch
  let l1 ← part1_len.to inch
  let y1 ← part1_yield.to ksi
  let t2 ← part2_t.to inch
  let l2 ← part2_len.to inch
  let y2 ← part2_yield.to ksi
  let r_n1 := y1.mag * (t1.mag * l1.mag)
  let r_n2 := y2.mag * (t2.mag * l2.mag)
  if design_method = "ASD" then
    let fos := 1.67
    pure (r_n1 / fos, r_n2 / fos)
  else if design_method = "LRFD" then
    let str_reduction := 0.90
    pure (str_reduction * r_n1, str_reduction * r_n2)
  else
    Except.error SteelError.invalidDesignMethod

/-- `connected_elem_tensile_rupture_str` (connected_element.py lines 167–226). -/
def connected_elem_tensile_rupture_str (design_method : String)
    (bolt_dia : Quantity) (bolt_count : ℤ) (shear_lag : ℝ)
    (part1_t part1_len part1_ult part2_t part2_len part2_ult : Quantity) :
    Except SteelError (ℝ × ℝ) := do
  let d ← bolt_dia.to inch
  let t1 ← part1_t.to inch
  let l1 ← part1_len.to inch
  let u1 ← part1_ult.to ksi
  let t2 ← part2_t.to inch
  let l2 ← part2_len.to inch
  let u2 ← part2_ult.to ksi
  let net_width_1 := l1.mag - (d.mag + 0.063) * (bolt_count : ℝ)
  let net_width_2 := l2.mag - (d.mag + 0.063) * (bolt_count : ℝ)
  let a_nv1 := t1.mag * net_width_1
  let a_nv2 := t2.mag * net_width_2
  let r_n1 := u1.mag * a_nv1 * shear_lag
  let r_n2 := u2.mag * a_nv2 * shear_lag
  if design_method = "ASD" then
    let fos := 2.00
    pure (r_n1 / fos, r_n2 / fos)
  else if design_method = "LRFD" then
    let str_reduction := 0.75
    pure (str_reduction * r_n1, str_reduction * r_n2)
  else
    Except.error SteelError.invalidDesignMethod

/-! ### src/Steel/weld.py -/

/-- `min_weld_size` (weld.py lines 11–36).  The Python `if`/`elif` chain has
no `else`, so a fall-through would return `None`; that path is the
`Option.none` below. -/
def min_weld_size (part1_t part2_t : Quantity) :
    Except SteelError (Option ℝ) := do
  let t1 ← part1_t.to inch
  let t2 ← part2_t.to inch
  let t_min := min t1.mag t2.mag
  if t_min < 0.25 then
    pure (some 0.1250)
  else if 0.25 ≤ t_min ∧ t_min < 0.5 then
    pure (some 0.1875)
  else if 0.5 ≤ t_min ∧ t_min < 0.75 then
    pure (some 0.2500)
  else if 0.75 ≤ t_min then
    pure (some 0.3125)
  else
    pure none

/-- `weld_material_strength` (weld.py lines 39–75).  `weld_size` is a bare
number (sixteenths of an inch), `weld_sides` a bare integer. -/
def weld_material_strength (design_method : String) (weld_size : ℝ)
    (weld_length : Quantity) (weld_sides : ℤ) : Except SteelError ℝ := do
  let l ← weld_length.to inch
  let r_n := 0.60 * 70 * (Real.sqrt 2 / 2) * (weld_size / 16) * l.mag *
    (weld_sides : ℝ)
  if design_method = "ASD" then
    let fos := 2.00
    pure (r_n / fos)
  else if design_method = "LRFD" then
    let str_reduction := 0.75
    pure (str_reduction * r_n)
  else
    Except.error SteelError.invalidDesignMethod

/-- `weld_rupture_strength` (weld.py lines 79–128).  When `weld_sides` is
neither 1 nor 2 the Python code assigns neither `t1_min` nor `t2_min` and
then reads them, raising `UnboundLocalError`; that is the
`SteelError.unboundLocal` branch. -/
def weld_rupture_strength (design_method : String) (weld_size : ℝ)
    (weld_length : Quantity) (weld_sides : ℤ)
    (part1_t part1_ult part2_t part2_ult : Quantity) :
    Except SteelError ℝ := do
  let l ← weld_length.to inch
  let t1 ← part1_t.to inch
  let t2 ← part2_t.to inch
  let u1 ← part1_ult.to ksi
  let u2 ← part2_ult.to ksi
  let throat_area := 0.707 * (weld_size / 16)
  let weld_strength_per_length := 0.60 * 70 * throat_area
  let tmins ←
    if weld_sides = 1 then
      Except.ok (weld_strength_per_length / (0.6 * u1.mag),
        weld_strength_per_length / (0.6 * u2.mag))
    else if weld_sides = 2 then
      Except.ok (2 * weld_strength_per_length / (0.6 * u1.mag),
        2 * weld_strength_per_length / (0.6 * u2.mag))
    else
      Except.error SteelError.unboundLocal
  let reduction_1 := t1.mag / tmins.1
  let reduction_2 := t2.mag / tmins.2
  let weld_mat_strength ←
    weld_material_strength design_method weld_size l weld_sides
  if reduction_1 < 1 ∨ reduction_2 < 1 then
    pure (weld_mat_strength * min reduction_1 reduction_2)
  else
    pure weld_mat_strength

/-! ### Evaluation lemmas

Each function is reduced, under the assumption that its quantity inputs
have the expected physical dimensions, to an explicit expression in the
canonical magnitudes of its inputs. -/

lemma to_inch_eq (q : Quantity) (h : q.u.dim = Dim.length) :
    q.to inch = Except.ok ⟨q.canon, inch⟩ := by
  simp [Quantity.to, inch, h, Quantity.canon]

lemma to_ksi_eq (q : Quantity) (h : q.u.dim = Dim.stress) :
    q.to ksi = Except.ok ⟨q.canon, ksi⟩ := by
  simp [Quantity.to, ksi, h, Quantity.canon]

lemma nominal_fastener_strength_eval (fu : Quantity)
    (hf : fu.u.dim = Dim.stress) :
    nominal_fastener_strength fu = Except.ok (0.45 * fu.canon, 0.75 * fu.canon) := by
  simp [nominal_fastener_strength, to_ksi_eq, hf, Bind.bind, Except.bind,
    Pure.pure, Except.pure]

lemma shear_strength_bolts_eval (m : String) (d fu : Quantity)
    (hd : d.u.dim = Dim.length) (hf : fu.u.dim = Dim.stress) :
    shear_strength_bolts m d fu =
      if m = "ASD" then
        Except.ok (0.45 * fu.canon * (Real.pi / 4) * d.canon ^ 2 / 2.00)
      else if m = "LRFD" then
        Except.ok (0.75 * (0.45 * fu.canon * (Real.pi / 4) * d.canon ^ 2))
      else Except.error SteelError.invalidDesignMethod := by
  simp [shear_strength_bolts, nominal_fastener_strength, to_inch_eq, to_ksi_eq,
    hd, hf, Bind.bind, Except.bind, Pure.pure, Except.pure]

lemma tensile_strength_bolts_eval (m : String) (d fu : Quantity)
    (hd : d.u.dim = Dim.length) (hf : fu.u.dim = Dim.stress) :
    tensile_strength_bolts m d fu =
      if m = "ASD" then
        Except.ok (0.75 * fu.canon * (Real.pi / 4) * d.canon ^ 2 / 2.00)
      else if m = "LRFD" then
        Except.ok (0.75 * (0.75 * fu.canon * (Real.pi / 4) * d.canon ^ 2))
      else Except.error SteelError.invalidDesignMethod := by
  simp [tensile_strength_bolts, nominal_fastener_strength, to_inch_eq, to_ksi_eq,
    hd, hf, Bind.bind, Except.bind, Pure.pure, Except.pure]

lemma bearing_strength_bolts_eval (m : String) (d t1 u1 t2 u2 : Quantity)
    (hd : d.u.dim = Dim.length) (ht1 : t1.u.dim = Dim.length)
    (hu1 : u1.u.dim = Dim.stress) (ht2 : t2.u.dim = Dim.length)
    (hu2 : u2.u.dim = Dim.stress) :
    bearing_strength_bolts m d t1 u1 t2 u2 =
      if m = "ASD" then
        Except.ok (2.4 * d.canon * t1.canon * u1.canon / 2.00,
          2.4 * d.canon * t2.canon * u2.canon / 2.00)
      else if m = "LRFD" then
        Except.ok (0.75 * (2.4 * d.canon * t1.canon * u1.canon),
          0.75 * (2.4 * d.canon * t2.canon * u2.canon))
      else Except.error SteelError.invalidDesignMethod := by
  simp [bearing_strength_bolts, to_inch_eq, to_ksi_eq, hd, ht1, hu1, ht2, hu2,
    Bind.bind, Except.bind, Pure.pure, Except.pure]

lemma tearout_strength_bolts_eval (m : String) (d e1 e2 t1 u1 t2 u2 : Quantity)
    (hd : d.u.dim = Dim.length) (he1 : e1.u.dim = Dim.length)
    (he2 : e2.u.dim = Dim.length) (ht1 : t1.u.dim = Dim.length)
    (hu1 : u1.u.dim = Dim.stress) (ht2 : t2.u.dim = Dim.length)
    (hu2 : u2.u.dim = Dim.stress) :
    tearout_strength_bolts m d e1 e2 t1 u1 t2 u2 =
      if m = "ASD" then
        Except.ok (1.2 * (e1.canon - (d.canon + 0.125) / 2) * t1.canon * u1.canon / 2.00,
          1.2 * (e2.canon - (d.canon + 0.125) / 2) * t2.canon * u2.canon / 2.00)
      else if m = "LRFD" then
        Except.ok (0.75 * (1.2 * (e1.canon - (d.canon + 0.125) / 2) * t1.canon * u1.canon),
          0.75 * (1.2 * (e2.canon - (d.canon + 0.125) / 2) * t2.canon * u2.canon))
      else Except.error SteelError.invalidDesignMethod := by
  simp [tearout_strength_bolts, to_inch_eq, to_ksi_eq, hd, he1, he2, ht1, hu1,
    ht2, hu2, Bind.bind, Except.bind, Pure.pure, Except.pure]

lemma connected_elem_shear_yield_str_eval (m : String)
    (t1 l1 y1 t2 l2 y2 : Quantity)
    (ht1 : t1.u.dim = Dim.length) (hl1 : l1.u.dim = Dim.length)
    (hy1 : y1.u.dim = Dim.stress) (ht2 : t2.u.dim = Dim.length)
    (hl2 : l2.u.dim = Dim.length) (hy2 : y2.u.dim = Dim.stress) :
    connected_elem_shear_yield_str m t1 l1 y1 t2 l2 y2 =
      if m = "ASD" then
        Except.ok (0.60 * y1.canon * (t1.canon * l1.canon) / 1.50,
          0.60 * y2.canon * (t2.canon * l2.canon) / 1.50)
      else if m = "LRFD" then
        Except.ok (1.00 * (0.60 * y1.canon * (t1.canon * l1.canon)),
          1.00 * (0.60 * y2.canon * (t2.canon * l2.canon)))
      else Except.error SteelError.invalidDesignMethod := by
  simp [connected_elem_shear_yield_str, to_inch_eq, to_ksi_eq, ht1, hl1, hy1,
    ht2, hl2, hy2, Bind.bind, Except.bind, Pure.pure, Except.pure]

lemma connected_elem_shear_rupture_str_eval (m : String) (d : Quantity) (n : ℤ)
    (t1 l1 u1 t2 l2 u2 : Quantity)
    (hd : d.u.dim = Dim.length)
    (ht1 : t1.u.dim = Dim.length) (hl1 : l1.u.dim = Dim.length)
    (hu1 : u1.u.dim = Dim.stress) (ht2 : t2.u.dim = Dim.length)
    (hl2 : l2.u.dim = Dim.length) (hu2 : u2.u.dim = Dim.stress) :
    connected_elem_shear_rupture_str m d n t1 l1 u1 t2 l2 u2 =
      if m = "ASD" then
        Except.ok
          (0.60 * u1.canon * (t1.canon * (l1.canon - (d.canon + 0.063) * (n : ℝ))) / 2.00,
            0.60 * u2.canon * (t2.canon * (l2.canon - (d.canon + 0.063) * (n : ℝ))) / 2.00)
      else if m = "LRFD" then
        Except.ok
          (0.75 * (0.60 * u1.canon * (t1.canon * (l1.canon - (d.canon + 0.063) * (n : ℝ)))),
            0.75 * (0.60 * u2.canon * (t2.canon * (l2.canon - (d.canon + 0.063) * (n : ℝ)))))
      else Except.error SteelError.invalidDesignMethod := by
  simp [connected_elem_shear_rupture_str, to_inch_eq, to_ksi_eq, hd, ht1, hl1,
    hu1, ht2, hl2, hu2, Bind.bind, Except.bind, Pure.pure, Except.pure]

lemma connected_elem_tensile_yield_str_eval (m : String)
    (t1 l1 y1 t2 l2 y2 : Quantity)
    (ht1 : t1.u.dim = Dim.length) (hl1 : l1.u.dim = Dim.length)
    (hy1 : y1.u.dim = Dim.stress) (ht2 : t2.u.dim = Dim.length)
    (hl2 : l2.u.dim = Dim.length) (hy2 : y2.u.dim = Dim.stress) :
    connected_elem_tensile_yield_str m t1 l1 y1 t2 l2 y2 =
      if m = "ASD" then
        Except.ok (y1.canon * (t1.canon * l1.canon) / 1.67,
          y2.canon * (t2.canon * l2.canon) / 1.67)
      else if m = "LRFD" then
        Except.ok (0.90 * (y1.canon * (t1.canon * l1.canon)),
          0.90 * (y2.canon * (t2.canon * l2.canon)))
      else Except.error SteelError.invalidDesignMethod := by
  simp [connected_elem_tensile_yield_str, to_inch_eq, to_ksi_eq, ht1, hl1, hy1,
    ht2, hl2, hy2, Bind.bind, Except.bind, Pure.pure, Except.pure]

lemma connected_elem_tensile_rupture_str_eval (m : String) (d : Quantity)
    (n : ℤ) (lag : ℝ) (t1 l1 u1 t2 l2 u2 : Quantity)
    (hd : d.u.dim = Dim.length)
    (ht1 : t1.u.dim = Dim.length) (hl1 : l1.u.dim = Dim.length)
    (hu1 : u1.u.dim = Dim.stress) (ht2 : t2.u.dim = Dim.length)
    (hl2 : l2.u.dim = Dim.length) (hu2 : u2.u.dim = Dim.stress) :
    connected_elem_tensile_rupture_str m d n lag t1 l1 u1 t2 l2 u2 =
      if m = "ASD" then
        Except.ok
          (u1.canon * (t1.canon * (l1.canon - (d.canon + 0.063) * (n : ℝ))) * lag / 2.00,
            u2.canon * (t2.canon * (l2.canon - (d.canon + 0.063) * (n : ℝ))) * lag / 2.00)
      else if m = "LRFD" then
        Except.ok
          (0.75 * (u1.canon * (t1.canon * (l1.canon - (d.canon + 0.063) * (n : ℝ))) * lag),
            0.75 * (u2.canon * (t2.canon * (l2.canon - (d.canon + 0.063) * (n : ℝ))) * lag))
      else Except.error SteelError.invalidDesignMethod := by
  simp [connected_elem_tensile_rupture_str, to_inch_eq, to_ksi_eq, hd, ht1, hl1,
    hu1, ht2, hl2, hu2, Bind.bind, Except.bind, Pure.pure, Except.pure]

lemma min_weld_size_eval (t1 t2 : Quantity)
    (ht1 : t1.u.dim = Dim.length) (ht2 : t2.u.dim = Dim.length) :
    min_weld_size t1 t2 =
      (if min t1.canon t2.canon < 0.25 then Except.ok (some 0.1250)
       else if 0.25 ≤ min t1.canon t2.canon ∧ min t1.canon t2.canon < 0.5 then
         Except.ok (some 0.1875)
       else if 0.5 ≤ min t1.canon t2.canon ∧ min t1.canon t2.canon < 0.75 then
         Except.ok (some 0.2500)
       else if 0.75 ≤ min t1.canon t2.canon then Except.ok (some 0.3125)
       else Except.ok none) := by
  simp [min_weld_size, to_inch_eq, ht1, ht2, Bind.bind, Except.bind,
    Pure.pure, Except.pure]

lemma weld_material_strength_eval (m : String) (ws : ℝ) (l : Quantity)
    (sides : ℤ) (hl : l.u.dim = Dim.length) :
    weld_material_strength m ws l sides =
      if m = "ASD" then
        Except.ok (0.60 * 70 * (Real.sqrt 2 / 2) * (ws / 16) * l.canon *
          (sides : ℝ) / 2.00)
      else if m = "LRFD" then
        Except.ok (0.75 * (0.60 * 70 * (Real.sqrt 2 / 2) * (ws / 16) * l.canon *
          (sides : ℝ)))
      else Except.error SteelError.invalidDesignMethod := by
  simp [weld_material_strength, to_inch_eq, hl, Bind.bind, Except.bind,
    Pure.pure, Except.pure]

lemma weld_rupture_strength_eval (m : String) (ws : ℝ) (l : Quantity)
    (sides : ℤ) (t1 u1 t2 u2 : Quantity)
    (hl : l.u.dim = Dim.length) (ht1 : t1.u.dim = Dim.length)
    (ht2 : t2.u.dim = Dim.length) (hu1 : u1.u.dim = Dim.stress)
    (hu2 : u2.u.dim = Dim.stress) (tm1 tm2 : ℝ)
    (htm : sides = 1 ∧
        tm1 = 0.60 * 70 * (0.707 * (ws / 16)) / (0.6 * u1.canon) ∧
        tm2 = 0.60 * 70 * (0.707 * (ws / 16)) / (0.6 * u2.canon) ∨
      sides = 2 ∧
        tm1 = 2 * (0.60 * 70 * (0.707 * (ws / 16))) / (0.6 * u1.canon) ∧
        tm2 = 2 * (0.60 * 70 * (0.707 * (ws / 16))) / (0.6 * u2.canon)) :
    weld_rupture_strength m ws l sides t1 u1 t2 u2 =
      (weld_material_strength m ws l sides).map
        (fun w =>
          if t1.canon / tm1 < 1 ∨ t2.canon / tm2 < 1 then
            w * min (t1.canon / tm1) (t2.canon / tm2)
          else w) := by
  have hinner :
      weld_material_strength m ws (⟨l.canon, inch⟩ : Quantity) sides =
        weld_material_strength m ws l sides := by
    rw [weld_material_strength_eval m ws _ sides rfl,
      weld_material_strength_eval m ws l sides hl]
    simp [Quantity.canon, inch]
  rcases htm with ⟨hs, h1, h2⟩ | ⟨hs, h1, h2⟩ <;> subst hs <;> subst h1 <;>
    subst h2 <;>
    simp only [weld_rupture_strength, to_inch_eq, to_ksi_eq, hl, ht1, ht2,
      hu1, hu2, Bind.bind, Except.bind, hinner] <;>
    by_cases hm1 : m = "ASD" <;> by_cases hm2 : m = "LRFD" <;>
    simp_all [weld_material_strength_eval, Except.map] <;>
    split <;> rfl

/-! ### Spec-side nominal strengths

These definitions follow the wording of spec §4.2–§4.5: the nominal
(unfactored) strength `Rn` of each limit state, written in canonical
units (inch, ksi).  They are the refinement targets the code's output is
compared against. -/

namespace SpecNominal

/-- Spec §4.3: bolt shear `Rn = f_nv·(π/4)·dia²` with `f_nv = 0.45·f_u`. -/
def bolt_shear (dia fu : ℝ) : ℝ := 0.45 * fu * (Real.pi / 4) * dia ^ 2

/-- Spec §4.3: bolt tension `Rn = f_nt·(π/4)·dia²` with `f_nt = 0.75·f_u`. -/
def bolt_tension (dia fu : ℝ) : ℝ := 0.75 * fu * (Real.pi / 4) * dia ^ 2

/-- Spec §4.3: bolt bearing `Rn_i = 2.4·dia·t_i·f_u_i`. -/
def bolt_bearing (dia t fu : ℝ) : ℝ := 2.4 * dia * t * fu

/-- Spec §4.3: bolt tearout `Rn_i = 1.2·net_dist_i·t_i·f_u_i` with
`net_dist = edge_dist − (dia + 0.125in)/2`. -/
def bolt_tearout (dia e t fu : ℝ) : ℝ := 1.2 * (e - (dia + 0.125) / 2) * t * fu

/-- Spec §4.4: element shear yield `Rn_i = 0.60·fy_i·(t_i·len_i)`. -/
def elem_shear_yield (t len fy : ℝ) : ℝ := 0.60 * fy * (t * len)

/-- Spec §4.4: element shear rupture `Rn_i = 0.60·fu_i·area_i` with
`area_i = t_i·(len_i − (dia + 0.063in)·bolt_count)`. -/
def elem_shear_rupture (dia : ℝ) (n : ℤ) (t len fu : ℝ) : ℝ :=
  0.60 * fu * (t * (len - (dia + 0.063) * (n : ℝ)))

/-- Spec §4.4: element tensile yield `Rn_i = fy_i·(t_i·len_i)`. -/
def elem_tensile_yield (t len fy : ℝ) : ℝ := fy * (t * len)

/-- Spec §4.4: element tensile rupture `Rn_i = fu_i·area_i·shear_lag`. -/
def elem_tensile_rupture (dia : ℝ) (n : ℤ) (lag t len fu : ℝ) : ℝ :=
  fu * (t * (len - (dia + 0.063) * (n : ℝ))) * lag

/-- Spec §4.5: weld material strength
`Rn = 0.60·(70 ksi)·(√2/2)·(weld_size/16 in)·weld_length·weld_sides`. -/
def weld_material (ws len : ℝ) (sides : ℤ) : ℝ :=
  0.60 * 70 * (Real.sqrt 2 / 2) * (ws / 16) * len * (sides : ℝ)

end SpecNominal

/-! ### Claims -/

/-- **C1.** For every limit-state function and every dimensionally valid
input, the ASD result is the nominal strength `Rn` divided by the limit
state's safety factor and the LRFD result is `Rn` times its reduction
factor, with the codified pairs: `(Ω, φ) = (2.00, 0.75)` for bolt shear,
bolt tension, bolt bearing, bolt tearout, element shear rupture, element
tensile rupture and weld material strength; `(1.50, 1.00)` for element
shear yield; `(1.67, 0.90)` for element tensile yield. -/
theorem design_method_factor_pairs
    (d fu e1 e2 t1 t2 l1 l2 y1 y2 u1 u2 : Quantity) (n sides : ℤ)
    (lag ws : ℝ)
    (hd : d.u.dim = Dim.length) (hfu : fu.u.dim = Dim.stress)
    (he1 : e1.u.dim = Dim.length) (he2 : e2.u.dim = Dim.length)
    (ht1 : t1.u.dim = Dim.length) (ht2 : t2.u.dim = Dim.length)
    (hl1 : l1.u.dim = Dim.length) (hl2 : l2.u.dim = Dim.length)
    (hy1 : y1.u.dim = Dim.stress) (hy2 : y2.u.dim = Dim.stress)
    (hu1 : u1.u.dim = Dim.stress) (hu2 : u2.u.dim = Dim.stress) :
    (shear_strength_bolts "ASD" d fu =
        Except.ok (SpecNominal.bolt_shear d.canon fu.canon / 2.00) ∧
      shear_strength_bolts "LRFD" d fu =
        Except.ok (0.75 * SpecNominal.bolt_shear d.canon fu.canon)) ∧
    (tensile_strength_bolts "ASD" d fu =
        Except.ok (SpecNominal.bolt_tension d.canon fu.canon / 2.00) ∧
      tensile_strength_bolts "LRFD" d fu =
        Except.ok (0.75 * SpecNominal.bolt_tension d.canon fu.canon)) ∧
    (bearing_strength_bolts "ASD" d t1 u1 t2 u2 =
        Except.ok (SpecNominal.bolt_bearing d.canon t1.canon u1.canon / 2.00,
          SpecNominal.bolt_bearing d.canon t2.canon u2.canon / 2.00) ∧
      bearing_strength_bolts "LRFD" d t1 u1 t2 u2 =
        Except.ok (0.75 * SpecNominal.bolt_bearing d.canon t1.canon u1.canon,
          0.75 * SpecNominal.bolt_bearing d.canon t2.canon u2.canon)) ∧
    (tearout_strength_bolts "ASD" d e1 e2 t1 u1 t2 u2 =
        Except.ok
          (SpecNominal.bolt_tearout d.canon e1.canon t1.canon u1.canon / 2.00,
            SpecNominal.bolt_tearout d.canon e2.canon t2.canon u2.canon / 2.00) ∧
      tearout_strength_bolts "LRFD" d e1 e2 t1 u1 t2 u2 =
        Except.ok
          (0.75 * SpecNominal.bolt_tearout d.canon e1.canon t1.canon u1.canon,
            0.75 * SpecNominal.bolt_tearout d.canon e2.canon t2.canon u2.canon)) ∧
    (connected_elem_shear_yield_str "ASD" t1 l1 y1 t2 l2 y2 =
        Except.ok (SpecNominal.elem_shear_yield t1.canon l1.canon y1.canon / 1.50,
          SpecNominal.elem_shear_yield t2.canon l2.canon y2.canon / 1.50) ∧
      connected_elem_shear_yield_str "LRFD" t1 l1 y1 t2 l2 y2 =
        Except.ok (1.00 * SpecNominal.elem_shear_yield t1.canon l1.canon y1.canon,
          1.00 * SpecNominal.elem_shear_yield t2.canon l2.canon y2.canon)) ∧
    (connected_elem_shear_rupture_str "ASD" d n t1 l1 u1 t2 l2 u2 =
        Except.ok
          (SpecNominal.elem_shear_rupture d.canon n t1.canon l1.canon u1.canon / 2.00,
            SpecNominal.elem_shear_rupture d.canon n t2.canon l2.canon u2.canon / 2.00) ∧
      connected_elem_shear_rupture_str "LRFD" d n t1 l1 u1 t2 l2 u2 =
        Except.ok
          (0.75 * SpecNominal.elem_shear_rupture d.canon n t1.canon l1.canon u1.canon,
            0.75 * SpecNominal.elem_shear_rupture d.canon n t2.canon l2.canon u2.canon)) ∧
    (connected_elem_tensile_yield_str "ASD" t1 l1 y1 t2 l2 y2 =
        Except.ok (SpecNominal.elem_tensile_yield t1.canon l1.canon y1.canon / 1.67,
          SpecNominal.elem_tensile_yield t2.canon l2.canon y2.canon / 1.67) ∧
      connected_elem_tensile_yield_str "LRFD" t1 l1 y1 t2 l2 y2 =
        Except.ok (0.90 * SpecNominal.elem_tensile_yield t1.canon l1.canon y1.canon,
          0.90 * SpecNominal.elem_tensile_yield t2.canon l2.canon y2.canon)) ∧
    (connected_elem_tensile_rupture_str "ASD" d n lag t1 l1 u1 t2 l2 u2 =
        Except.ok
          (SpecNominal.elem_tensile_rupture d.canon n lag t1.canon l1.canon u1.canon / 2.00,
            SpecNominal.elem_tensile_rupture d.canon n lag t2.canon l2.canon u2.canon / 2.00) ∧
      connected_elem_tensile_rupture_str "LRFD" d n lag t1 l1 u1 t2 l2 u2 =
        Except.ok
          (0.75 * SpecNominal.elem_tensile_rupture d.canon n lag t1.canon l1.canon u1.canon,
            0.75 * SpecNominal.elem_tensile_rupture d.canon n lag t2.canon l2.canon u2.canon)) ∧
    (weld_material_strength "ASD" ws l1 sides =
        Except.ok (SpecNominal.weld_material ws l1.canon sides / 2.00) ∧
      weld_material_strength "LRFD" ws l1 sides =
        Except.ok (0.75 * SpecNominal.weld_material ws l1.canon sides)) := by
  simp only [SpecNominal.bolt_shear, SpecNominal.bolt_tension,
    SpecNominal.bolt_bearing, SpecNominal.bolt_tearout,
    SpecNominal.elem_shear_yield, SpecNominal.elem_shear_rupture,
    SpecNominal.elem_tensile_yield, SpecNominal.elem_tensile_rupture,
    SpecNominal.weld_material]
  refine ⟨⟨?_, ?_⟩, ⟨?_, ?_⟩, ⟨?_, ?_⟩, ⟨?_, ?_⟩, ⟨?_, ?_⟩, ⟨?_, ?_⟩,
    ⟨?_, ?_⟩, ⟨?_, ?_⟩, ⟨?_, ?_⟩⟩
  · rw [shear_strength_bolts_eval _ _ _ hd hfu, if_pos rfl]
  · rw [shear_strength_bolts_eval _ _ _ hd hfu, if_neg (by decide), if_pos rfl]
  · rw [tensile_strength_bolts_eval _ _ _ hd hfu, if_pos rfl]
  · rw [tensile_strength_bolts_eval _ _ _ hd hfu, if_neg (by decide), if_pos rfl]
  · rw [bearing_strength_bolts_eval _ _ _ _ _ _ hd ht1 hu1 ht2 hu2, if_pos rfl]
  · rw [bearing_strength_bolts_eval _ _ _ _ _ _ hd ht1 hu1 ht2 hu2,
      if_neg (by decide), if_pos rfl]
  · rw [tearout_strength_bolts_eval _ _ _ _ _ _ _ _ hd he1 he2 ht1 hu1 ht2 hu2,
      if_pos rfl]
  · rw [tearout_strength_bolts_eval _ _ _ _ _ _ _ _ hd he1 he2 ht1 hu1 ht2 hu2,
      if_neg (by decide), if_pos rfl]
  · rw [connected_elem_shear_yield_str_eval _ _ _ _ _ _ _ ht1 hl1 hy1 ht2 hl2 hy2,
      if_pos rfl]
  · rw [connected_elem_shear_yield_str_eval _ _ _ _ _ _ _ ht1 hl1 hy1 ht2 hl2 hy2,
      if_neg (by decide), if_pos rfl]
  · rw [connected_elem_shear_rupture_str_eval _ _ _ _ _ _ _ _ _ hd ht1 hl1 hu1
      ht2 hl2 hu2, if_pos rfl]
  · rw [connected_elem_shear_rupture_str_eval _ _ _ _ _ _ _ _ _ hd ht1 hl1 hu1
      ht2 hl2 hu2, if_neg (by decide), if_pos rfl]
  · rw [connected_elem_tensile_yield_str_eval _ _ _ _ _ _ _ ht1 hl1 hy1 ht2 hl2 hy2,
      if_pos rfl]
  · rw [connected_elem_tensile_yield_str_eval _ _ _ _ _ _ _ ht1 hl1 hy1 ht2 hl2 hy2,
      if_neg (by decide), if_pos rfl]
  · rw [connected_elem_tensile_rupture_str_eval _ _ _ _ _ _ _ _ _ _ hd ht1 hl1
      hu1 ht2 hl2 hu2, if_pos rfl]
  · rw [connected_elem_tensile_rupture_str_eval _ _ _ _ _ _ _ _ _ _ hd ht1 hl1
      hu1 ht2 hl2 hu2, if_neg (by decide), if_pos rfl]
  · rw [weld_material_strength_eval _ _ _ _ hl1, if_pos rfl]
  · rw [weld_material_strength_eval _ _ _ _ hl1, if_neg (by decide), if_pos rfl]

/-- Witness for C1: the bolt-shear ASD identity at a concrete valid input,
obtained by applying `design_method_factor_pairs` with every hypothesis
discharged by `rfl`. -/
theorem design_method_factor_pairs_witness :
    shear_strength_bolts "ASD" ⟨0.75, inch⟩ ⟨120, ksi⟩ =
      Except.ok (SpecNominal.bolt_shear (Quantity.canon ⟨0.75, inch⟩)
        (Quantity.canon ⟨120, ksi⟩) / 2.00) :=
  (design_method_factor_pairs ⟨0.75, inch⟩ ⟨120, ksi⟩ ⟨1.5, inch⟩ ⟨1.5, inch⟩
    ⟨0.5, inch⟩ ⟨0.375, inch⟩ ⟨6, inch⟩ ⟨6, inch⟩ ⟨36, ksi⟩ ⟨36, ksi⟩
    ⟨58, ksi⟩ ⟨58, ksi⟩ 2 1 0.8 4 rfl rfl rfl rfl rfl rfl rfl rfl rfl rfl
    rfl rfl).1.1

/-- **C2.** The nominal fastener stresses are `f_nv = 0.45·f_u` and
`f_nt = 0.75·f_u`; the nominal bolt strengths are
`Rn = f_nv·(π/4)·dia²` for shear and `Rn = f_nt·(π/4)·dia²` for tension,
the design-method factor being applied to that `Rn`; and
`shear_strength_bolts("LRFD", 0.75 in, 120 ksi)` equals
`0.75 · 54 ksi · (π/4) · (0.75 in)²`, within 0.01 kip of 17.89 kip. -/
theorem bolt_nominal_strengths (d fuq : Quantity)
    (hd : d.u.dim = Dim.length) (hf : fuq.u.dim = Dim.stress) :
    nominal_fastener_strength fuq =
        Except.ok (0.45 * fuq.canon, 0.75 * fuq.canon) ∧
    shear_strength_bolts "ASD" d fuq =
        Except.ok (SpecNominal.bolt_shear d.canon fuq.canon / 2.00) ∧
    shear_strength_bolts "LRFD" d fuq =
        Except.ok (0.75 * SpecNominal.bolt_shear d.canon fuq.canon) ∧
    tensile_strength_bolts "ASD" d fuq =
        Except.ok (SpecNominal.bolt_tension d.canon fuq.canon / 2.00) ∧
    tensile_strength_bolts "LRFD" d fuq =
        Except.ok (0.75 * SpecNominal.bolt_tension d.canon fuq.canon) ∧
    shear_strength_bolts "LRFD" ⟨0.75, inch⟩ ⟨120, ksi⟩ =
        Except.ok (0.75 * (54 * (Real.pi / 4) * 0.75 ^ 2)) ∧
    |0.75 * (54 * (Real.pi / 4) * 0.75 ^ 2) - 17.89| < 0.01 := by
  refine ⟨nominal_fastener_strength_eval fuq hf, ?_, ?_, ?_, ?_, ?_, ?_⟩
  · rw [shear_strength_bolts_eval _ _ _ hd hf, if_pos rfl]
    simp only [SpecNominal.bolt_shear]
  · rw [shear_strength_bolts_eval _ _ _ hd hf, if_neg (by decide), if_pos rfl]
    simp only [SpecNominal.bolt_shear]
  · rw [tensile_strength_bolts_eval _ _ _ hd hf, if_pos rfl]
    simp only [SpecNominal.bolt_tension]
  · rw [tensile_strength_bolts_eval _ _ _ hd hf, if_neg (by decide), if_pos rfl]
    simp only [SpecNominal.bolt_tension]
  · rw [shear_strength_bolts_eval _ _ _ rfl rfl, if_neg (by decide), if_pos rfl]
    norm_num [Quantity.canon, inch, ksi]
  · have h1 := Real.pi_gt_d6
    have h2 := Real.pi_lt_d6
    rw [abs_lt]
    constructor <;> nlinarith

/-- Witness for C2 at a concrete valid input (0.75 in diameter, 120 ksi):
the fastener-stress pair equation, by direct application of
`bolt_nominal_strengths`. -/
theorem bolt_nominal_strengths_witness :
    nominal_fastener_strength ⟨120, ksi⟩ =
      Except.ok (0.45 * Quantity.canon ⟨120, ksi⟩,
        0.75 * Quantity.canon ⟨120, ksi⟩) :=
  (bolt_nominal_strengths ⟨0.75, inch⟩ ⟨120, ksi⟩ rfl rfl).1

/-- **C3.** With the base-metal reductions
`reduction_i = actual_t_i / required_min_t_i` (required thickness as
computed by the code for 1- or 2-sided welds): when both reductions are
at least 1, `weld_rupture_strength` returns exactly
`weld_material_strength` at the same method, weld size, length and
sides; when either reduction is strictly below 1, it returns
`weld_material_strength` multiplied by `min(reduction_1, reduction_2)`. -/
theorem weld_rupture_vs_material (m : String) (ws : ℝ) (wl : Quantity)
    (sides : ℤ) (t1 u1 t2 u2 : Quantity)
    (hl : wl.u.dim = Dim.length) (ht1 : t1.u.dim = Dim.length)
    (ht2 : t2.u.dim = Dim.length) (hu1 : u1.u.dim = Dim.stress)
    (hu2 : u2.u.dim = Dim.stress) (tm1 tm2 : ℝ)
    (htm : sides = 1 ∧
        tm1 = 0.60 * 70 * (0.707 * (ws / 16)) / (0.6 * u1.canon) ∧
        tm2 = 0.60 * 70 * (0.707 * (ws / 16)) / (0.6 * u2.canon) ∨
      sides = 2 ∧
        tm1 = 2 * (0.60 * 70 * (0.707 * (ws / 16))) / (0.6 * u1.canon) ∧
        tm2 = 2 * (0.60 * 70 * (0.707 * (ws / 16))) / (0.6 * u2.canon)) :
    (1 ≤ t1.canon / tm1 → 1 ≤ t2.canon / tm2 →
      weld_rupture_strength m ws wl sides t1 u1 t2 u2 =
        weld_material_strength m ws wl sides) ∧
    (t1.canon / tm1 < 1 ∨ t2.canon / tm2 < 1 →
      weld_rupture_strength m ws wl sides t1 u1 t2 u2 =
        (weld_material_strength m ws wl sides).map
          (fun w => w * min (t1.canon / tm1) (t2.canon / tm2))) := by
  rw [weld_rupture_strength_eval m ws wl sides t1 u1 t2 u2 hl ht1 ht2 hu1 hu2
    tm1 tm2 htm]
  constructor
  · intro h1 h2
    have hc : ¬(t1.canon / tm1 < 1 ∨ t2.canon / tm2 < 1) := by
      push_neg
      exact ⟨h1, h2⟩
    cases hwm : weld_material_strength m ws wl sides <;>
      simp [Except.map, hc]
  · intro h
    cases hwm : weld_material_strength m ws wl sides <;>
      simp [Except.map, h]

/-- Witness for C3: a thick-plate case (2 in parts, 58 ksi, 4/16 in weld,
one side) where both reductions exceed 1, so the rupture strength equals
the weld material strength, by applying `weld_rupture_vs_material`. -/
theorem weld_rupture_vs_material_witness :
    weld_rupture_strength "LRFD" 4 ⟨6, inch⟩ 1 ⟨2, inch⟩ ⟨58, ksi⟩
        ⟨2, inch⟩ ⟨58, ksi⟩ =
      weld_material_strength "LRFD" 4 ⟨6, inch⟩ 1 :=
  (weld_rupture_vs_material "LRFD" 4 ⟨6, inch⟩ 1 ⟨2, inch⟩ ⟨58, ksi⟩
      ⟨2, inch⟩ ⟨58, ksi⟩ rfl rfl rfl rfl rfl _ _
      (Or.inl ⟨rfl, rfl, rfl⟩)).1
    (by norm_num [Quantity.canon, inch, ksi])
    (by norm_num [Quantity.canon, inch, ksi])

/-- **C4.** Both rupture calculators use the per-part net width
`len_i − (dia + 0.063 in)·bolt_count` and net area `t_i ·  net_width_i`;
shear rupture takes `Rn_i = 0.60·fu_i·area_i`, tensile rupture takes
`Rn_i = fu_i·area_i·shear_lag` (no 0.60 factor); and when the net width
is non-positive the result is still `Except.ok` (no error) with a
non-positive strength. -/
theorem net_section_rupture_strengths (d : Quantity) (n : ℤ) (lag : ℝ)
    (t1 l1 u1 t2 l2 u2 : Quantity)
    (hd : d.u.dim = Dim.length)
    (ht1 : t1.u.dim = Dim.length) (hl1 : l1.u.dim = Dim.length)
    (hu1 : u1.u.dim = Dim.stress) (ht2 : t2.u.dim = Dim.length)
    (hl2 : l2.u.dim = Dim.length) (hu2 : u2.u.dim = Dim.stress) :
    connected_elem_shear_rupture_str "ASD" d n t1 l1 u1 t2 l2 u2 =
      Except.ok
        (0.60 * u1.canon * (t1.canon * (l1.canon - (d.canon + 0.063) * (n : ℝ))) / 2.00,
          0.60 * u2.canon * (t2.canon * (l2.canon - (d.canon + 0.063) * (n : ℝ))) / 2.00) ∧
    connected_elem_shear_rupture_str "LRFD" d n t1 l1 u1 t2 l2 u2 =
      Except.ok
        (0.75 * (0.60 * u1.canon * (t1.canon * (l1.canon - (d.canon + 0.063) * (n : ℝ)))),
          0.75 * (0.60 * u2.canon * (t2.canon * (l2.canon - (d.canon + 0.063) * (n : ℝ))))) ∧
    connected_elem_tensile_rupture_str "ASD" d n lag t1 l1 u1 t2 l2 u2 =
      Except.ok
        (u1.canon * (t1.canon * (l1.canon - (d.canon + 0.063) * (n : ℝ))) * lag / 2.00,
          u2.canon * (t2.canon * (l2.canon - (d.canon + 0.063) * (n : ℝ))) * lag / 2.00) ∧
    connected_elem_tensile_rupture_str "LRFD" d n lag t1 l1 u1 t2 l2 u2 =
      Except.ok
        (0.75 * (u1.canon * (t1.canon * (l1.canon - (d.canon + 0.063) * (n : ℝ))) * lag),
          0.75 * (u2.canon * (t2.canon * (l2.canon - (d.canon + 0.063) * (n : ℝ))) * lag)) ∧
    (l1.canon - (d.canon + 0.063) * (n : ℝ) ≤ 0 → 0 ≤ t1.canon →
      0 ≤ u1.canon → 0 ≤ lag →
      0.60 * u1.canon * (t1.canon * (l1.canon - (d.canon + 0.063) * (n : ℝ))) / 2.00 ≤ 0 ∧
      0.75 * (0.60 * u1.canon * (t1.canon * (l1.canon - (d.canon + 0.063) * (n : ℝ)))) ≤ 0 ∧
      u1.canon * (t1.canon * (l1.canon - (d.canon + 0.063) * (n : ℝ))) * lag / 2.00 ≤ 0 ∧
      0.75 * (u1.canon * (t1.canon * (l1.canon - (d.canon + 0.063) * (n : ℝ))) * lag) ≤ 0) ∧
    (l2.canon - (d.canon + 0.063) * (n : ℝ) ≤ 0 → 0 ≤ t2.canon →
      0 ≤ u2.canon → 0 ≤ lag →
      0.60 * u2.canon * (t2.canon * (l2.canon - (d.canon + 0.063) * (n : ℝ))) / 2.00 ≤ 0 ∧
      0.75 * (0.60 * u2.canon * (t2.canon * (l2.canon - (d.canon + 0.063) * (n : ℝ)))) ≤ 0 ∧
      u2.canon * (t2.canon * (l2.canon - (d.canon + 0.063) * (n : ℝ))) * lag / 2.00 ≤ 0 ∧
      0.75 * (u2.canon * (t2.canon * (l2.canon - (d.canon + 0.063) * (n : ℝ))) * lag) ≤ 0) := by
  refine ⟨?_, ?_, ?_, ?_, ?_, ?_⟩
  · rw [connected_elem_shear_rupture_str_eval _ _ _ _ _ _ _ _ _ hd ht1 hl1 hu1
      ht2 hl2 hu2, if_pos rfl]
  · rw [connected_elem_shear_rupture_str_eval _ _ _ _ _ _ _ _ _ hd ht1 hl1 hu1
      ht2 hl2 hu2, if_neg (by decide), if_pos rfl]
  · rw [connected_elem_tensile_rupture_str_eval _ _ _ _ _ _ _ _ _ _ hd ht1 hl1
      hu1 ht2 hl2 hu2, if_pos rfl]
  · rw [connected_elem_tensile_rupture_str_eval _ _ _ _ _ _ _ _ _ _ hd ht1 hl1
      hu1 ht2 hl2 hu2, if_neg (by decide), if_pos rfl]
  · intro hX ht hu hlag
    refine ⟨?_, ?_, ?_, ?_⟩ <;>
      nlinarith [mul_nonneg hu ht, mul_nonneg (mul_nonneg hu ht) hlag]
  · intro hX ht hu hlag
    refine ⟨?_, ?_, ?_, ?_⟩ <;>
      nlinarith [mul_nonneg hu ht, mul_nonneg (mul_nonneg hu ht) hlag]

/-- Witness for C4: at 0.75 in bolts, 4 bolts on a 2 in wide part (net
width negative), the shear-rupture ASD result is still `ok` with the
net-section formula value, by applying `net_section_rupture_strengths`. -/
theorem net_section_rupture_strengths_witness :
    connected_elem_shear_rupture_str "ASD" ⟨0.75, inch⟩ 4 ⟨0.5, inch⟩
        ⟨2, inch⟩ ⟨58, ksi⟩ ⟨0.5, inch⟩ ⟨2, inch⟩ ⟨58, ksi⟩ =
      Except.ok
        (0.60 * Quantity.canon ⟨58, ksi⟩ *
            (Quantity.canon ⟨0.5, inch⟩ *
              (Quantity.canon ⟨2, inch⟩ -
                (Quantity.canon ⟨0.75, inch⟩ + 0.063) * ((4 : ℤ) : ℝ))) / 2.00,
          0.60 * Quantity.canon ⟨58, ksi⟩ *
            (Quantity.canon ⟨0.5, inch⟩ *
              (Quantity.canon ⟨2, inch⟩ -
                (Quantity.canon ⟨0.75, inch⟩ + 0.063) * ((4 : ℤ) : ℝ))) / 2.00) :=
  (net_section_rupture_strengths ⟨0.75, inch⟩ 4 0.8 ⟨0.5, inch⟩ ⟨2, inch⟩
    ⟨58, ksi⟩ ⟨0.5, inch⟩ ⟨2, inch⟩ ⟨58, ksi⟩ rfl rfl rfl rfl rfl rfl rfl).1

lemma weld_rupture_strength_unbound (m : String) (ws : ℝ) (wl : Quantity)
    (sides : ℤ) (t1 u1 t2 u2 : Quantity)
    (hl : wl.u.dim = Dim.length) (ht1 : t1.u.dim = Dim.length)
    (ht2 : t2.u.dim = Dim.length) (hu1 : u1.u.dim = Dim.stress)
    (hu2 : u2.u.dim = Dim.stress) (hs1 : sides ≠ 1) (hs2 : sides ≠ 2) :
    weld_rupture_strength m ws wl sides t1 u1 t2 u2 =
      Except.error SteelError.unboundLocal := by
  simp [weld_rupture_strength, to_inch_eq, to_ksi_eq, hl, ht1, ht2, hu1, hu2,
    hs1, hs2, Bind.bind, Except.bind]

/-- **C5.** Every limit-state function taking a design method, called with
any method other than `"ASD"` or `"LRFD"` on dimensionally valid inputs
(and, for `weld_rupture_strength`, a valid `weld_sides`), fails with the
invalid-design-method error — no silent default. -/
theorem invalid_design_method_errors (m : String)
    (hA : m ≠ "ASD") (hL : m ≠ "LRFD")
    (d fuq e1 e2 t1 t2 l1 l2 y1 y2 u1 u2 wl : Quantity) (n sides : ℤ)
    (lag ws : ℝ)
    (hd : d.u.dim = Dim.length) (hfu : fuq.u.dim = Dim.stress)
    (he1 : e1.u.dim = Dim.length) (he2 : e2.u.dim = Dim.length)
    (ht1 : t1.u.dim = Dim.length) (ht2 : t2.u.dim = Dim.length)
    (hl1 : l1.u.dim = Dim.length) (hl2 : l2.u.dim = Dim.length)
    (hy1 : y1.u.dim = Dim.stress) (hy2 : y2.u.dim = Dim.stress)
    (hu1 : u1.u.dim = Dim.stress) (hu2 : u2.u.dim = Dim.stress)
    (hwl : wl.u.dim = Dim.length) (hsides : sides = 1 ∨ sides = 2) :
    shear_strength_bolts m d fuq = Except.error SteelError.invalidDesignMethod ∧
    tensile_strength_bolts m d fuq = Except.error SteelError.invalidDesignMethod ∧
    bearing_strength_bolts m d t1 u1 t2 u2 =
      Except.error SteelError.invalidDesignMethod ∧
    tearout_strength_bolts m d e1 e2 t1 u1 t2 u2 =
      Except.error SteelError.invalidDesignMethod ∧
    connected_elem_shear_yield_str m t1 l1 y1 t2 l2 y2 =
      Except.error SteelError.invalidDesignMethod ∧
    connected_elem_shear_rupture_str m d n t1 l1 u1 t2 l2 u2 =
      Except.error SteelError.invalidDesignMethod ∧
    connected_elem_tensile_yield_str m t1 l1 y1 t2 l2 y2 =
      Except.error SteelError.invalidDesignMethod ∧
    connected_elem_tensile_rupture_str m d n lag t1 l1 u1 t2 l2 u2 =
      Except.error SteelError.invalidDesignMethod ∧
    weld_material_strength m ws wl sides =
      Except.error SteelError.invalidDesignMethod ∧
    weld_rupture_strength m ws wl sides t1 u1 t2 u2 =
      Except.error SteelError.invalidDesignMethod := by
  refine ⟨?_, ?_, ?_, ?_, ?_, ?_, ?_, ?_, ?_, ?_⟩
  · rw [shear_strength_bolts_eval _ _ _ hd hfu, if_neg hA, if_neg hL]
  · rw [tensile_strength_bolts_eval _ _ _ hd hfu, if_neg hA, if_neg hL]
  · rw [bearing_strength_bolts_eval _ _ _ _ _ _ hd ht1 hu1 ht2 hu2,
      if_neg hA, if_neg hL]
  · rw [tearout_strength_bolts_eval _ _ _ _ _ _ _ _ hd he1 he2 ht1 hu1 ht2 hu2,
      if_neg hA, if_neg hL]
  · rw [connected_elem_shear_yield_str_eval _ _ _ _ _ _ _ ht1 hl1 hy1 ht2 hl2
      hy2, if_neg hA, if_neg hL]
  · rw [connected_elem_shear_rupture_str_eval _ _ _ _ _ _ _ _ _ hd ht1 hl1 hu1
      ht2 hl2 hu2, if_neg hA, if_neg hL]
  · rw [connected_elem_tensile_yield_str_eval _ _ _ _ _ _ _ ht1 hl1 hy1 ht2 hl2
      hy2, if_neg hA, if_neg hL]
  · rw [connected_elem_tensile_rupture_str_eval _ _ _ _ _ _ _ _ _ _ hd ht1 hl1
      hu1 ht2 hl2 hu2, if_neg hA, if_neg hL]
  · rw [weld_material_strength_eval _ _ _ _ hwl, if_neg hA, if_neg hL]
  · rcases hsides with hs | hs <;> subst hs
    · rw [weld_rupture_strength_eval m ws wl 1 t1 u1 t2 u2 hwl ht1 ht2 hu1 hu2
        _ _ (Or.inl ⟨rfl, rfl, rfl⟩),
        weld_material_strength_eval _ _ _ _ hwl, if_neg hA, if_neg hL]
      rfl
    · rw [weld_rupture_strength_eval m ws wl 2 t1 u1 t2 u2 hwl ht1 ht2 hu1 hu2
        _ _ (Or.inr ⟨rfl, rfl, rfl⟩),
        weld_material_strength_eval _ _ _ _ hwl, if_neg hA, if_neg hL]
      rfl

/-- Witness for C5: the method `"XYZ"` on a concrete valid input makes
`shear_strength_bolts` fail with the invalid-design-method error, by
applying `invalid_design_method_errors`. -/
theorem invalid_design_method_errors_witness :
    shear_strength_bolts "XYZ" ⟨0.75, inch⟩ ⟨120, ksi⟩ =
      Except.error SteelError.invalidDesignMethod :=
  (invalid_design_method_errors "XYZ" (by decide) (by decide) ⟨0.75, inch⟩
    ⟨120, ksi⟩ ⟨1.5, inch⟩ ⟨1.5, inch⟩ ⟨0.5, inch⟩ ⟨0.375, inch⟩ ⟨6, inch⟩
    ⟨6, inch⟩ ⟨36, ksi⟩ ⟨36, ksi⟩ ⟨58, ksi⟩ ⟨58, ksi⟩ ⟨6, inch⟩ 2 1 0.8 4
    rfl rfl rfl rfl rfl rfl rfl rfl rfl rfl rfl rfl rfl (Or.inl rfl)).1

/-- **C6, counterexample.** At `weld_sides = 3` (dimensionally valid
inputs otherwise), `weld_rupture_strength` does fail, but with the
unbound-local error — the Python `UnboundLocalError` from reading the
never-assigned `t1_min` — not with an `InvalidWeldSides` error. -/
theorem weld_sides_error_counterexample :
    weld_rupture_strength "ASD" 4 ⟨6, inch⟩ 3 ⟨1, inch⟩ ⟨58, ksi⟩
        ⟨1, inch⟩ ⟨58, ksi⟩ = Except.error SteelError.unboundLocal ∧
    weld_rupture_strength "ASD" 4 ⟨6, inch⟩ 3 ⟨1, inch⟩ ⟨58, ksi⟩
        ⟨1, inch⟩ ⟨58, ksi⟩ ≠ Except.error SteelError.invalidWeldSides := by
  have h : weld_rupture_strength "ASD" 4 ⟨6, inch⟩ 3 ⟨1, inch⟩ ⟨58, ksi⟩
      ⟨1, inch⟩ ⟨58, ksi⟩ = Except.error SteelError.unboundLocal := by
    simp [weld_rupture_strength, Quantity.to, inch, ksi, Bind.bind, Except.bind]
  exact ⟨h, by rw [h]; simp⟩

/-- **C6, amended.** For every call to `weld_rupture_strength` with
dimensionally valid quantities and `weld_sides` neither 1 nor 2, the call
fails — but with the unbound-local error (Python's `UnboundLocalError`
on the never-assigned `t1_min`/`t2_min`), not with a dedicated
`InvalidWeldSides` error. -/
theorem weld_sides_unbound_error (m : String) (ws : ℝ) (wl : Quantity)
    (sides : ℤ) (t1 u1 t2 u2 : Quantity)
    (hl : wl.u.dim = Dim.length) (ht1 : t1.u.dim = Dim.length)
    (ht2 : t2.u.dim = Dim.length) (hu1 : u1.u.dim = Dim.stress)
    (hu2 : u2.u.dim = Dim.stress) (hs1 : sides ≠ 1) (hs2 : sides ≠ 2) :
    weld_rupture_strength m ws wl sides t1 u1 t2 u2 =
      Except.error SteelError.unboundLocal :=
  weld_rupture_strength_unbound m ws wl sides t1 u1 t2 u2 hl ht1 ht2 hu1 hu2
    hs1 hs2

/-- Witness for the amended C6 at `weld_sides = 0`. -/
theorem weld_sides_unbound_error_witness :
    weld_rupture_strength "LRFD" 4 ⟨6, inch⟩ 0 ⟨1, inch⟩ ⟨58, ksi⟩
        ⟨1, inch⟩ ⟨58, ksi⟩ = Except.error SteelError.unboundLocal :=
  weld_sides_unbound_error "LRFD" 4 ⟨6, inch⟩ 0 ⟨1, inch⟩ ⟨58, ksi⟩
    ⟨1, inch⟩ ⟨58, ksi⟩ rfl rfl rfl rfl rfl (by decide) (by decide)

/-- **C7.** `min_weld_size` is a step function of `t_min = min(t1, t2)`
with half-open-below brackets at 0.25, 0.5 and 0.75 inch, always
returning one of 0.1250, 0.1875, 0.2500, 0.3125: `t_min` exactly 0.25
falls in the 0.1875 bracket, `[0.5, 0.75)` gives 0.2500, and 0.75 and
above gives 0.3125. -/
theorem min_weld_size_step (t1 t2 : Quantity)
    (ht1 : t1.u.dim = Dim.length) (ht2 : t2.u.dim = Dim.length) :
    (min t1.canon t2.canon < 0.25 →
      min_weld_size t1 t2 = Except.ok (some 0.1250)) ∧
    (0.25 ≤ min t1.canon t2.canon → min t1.canon t2.canon < 0.5 →
      min_weld_size t1 t2 = Except.ok (some 0.1875)) ∧
    (0.5 ≤ min t1.canon t2.canon → min t1.canon t2.canon < 0.75 →
      min_weld_size t1 t2 = Except.ok (some 0.2500)) ∧
    (0.75 ≤ min t1.canon t2.canon →
      min_weld_size t1 t2 = Except.ok (some 0.3125)) ∧
    (∃ v, min_weld_size t1 t2 = Except.ok (some v) ∧
      (v = 0.1250 ∨ v = 0.1875 ∨ v = 0.2500 ∨ v = 0.3125)) := by
  rw [min_weld_size_eval t1 t2 ht1 ht2]
  refine ⟨?_, ?_, ?_, ?_, ?_⟩
  · intro h
    rw [if_pos h]
  · intro h1 h2
    rw [if_neg (not_lt.mpr h1), if_pos ⟨h1, h2⟩]
  · intro h1 h2
    rw [if_neg (not_lt.mpr (le_trans (by norm_num) h1)),
      if_neg (fun hc => (not_lt.mpr h1) hc.2), if_pos ⟨h1, h2⟩]
  · intro h
    rw [if_neg (not_lt.mpr (le_trans (by norm_num) h)),
      if_neg (fun hc => (not_lt.mpr (le_trans (by norm_num) h)) hc.2),
      if_neg (fun hc => (not_lt.mpr h) hc.2), if_pos h]
  · by_cases h1 : min t1.canon t2.canon < 0.25
    · exact ⟨0.1250, by rw [if_pos h1], Or.inl rfl⟩
    · by_cases h2 : min t1.canon t2.canon < 0.5
      · exact ⟨0.1875, by rw [if_neg h1, if_pos ⟨not_lt.mp h1, h2⟩],
          Or.inr (Or.inl rfl)⟩
      · by_cases h3 : min t1.canon t2.canon < 0.75
        · exact ⟨0.2500, by rw [if_neg h1, if_neg (fun hc => h2 hc.2),
            if_pos ⟨not_lt.mp h2, h3⟩], Or.inr (Or.inr (Or.inl rfl))⟩
        · exact ⟨0.3125, by rw [if_neg h1, if_neg (fun hc => h2 hc.2),
            if_neg (fun hc => h3 hc.2), if_pos (not_lt.mp h3)],
            Or.inr (Or.inr (Or.inr rfl))⟩

/-- Witness for C7: the lower boundary — `t_min` exactly 0.25 in maps to
0.1875, not 0.1250, by applying `min_weld_size_step`. -/
theorem min_weld_size_step_witness :
    min_weld_size ⟨0.25, inch⟩ ⟨1, inch⟩ = Except.ok (some 0.1875) :=
  (min_weld_size_step ⟨0.25, inch⟩ ⟨1, inch⟩ rfl rfl).2.1
    (by norm_num [Quantity.canon, inch, min_def])
    (by norm_num [Quantity.canon, inch, min_def])

/-- **C8, counterexample.** At thickness −1 in for both parts
(`t_min = −1 < 0`), `min_weld_size` does return a value: the negative
`t_min` satisfies the first branch `t_min < 0.25 in`, so the result is
`0.1250` — not the claimed no-value fall-through. -/
theorem min_weld_size_negative_counterexample :
    min_weld_size ⟨-1, inch⟩ ⟨-1, inch⟩ = Except.ok (some 0.1250) ∧
    min_weld_size ⟨-1, inch⟩ ⟨-1, inch⟩ ≠ Except.ok none := by
  have h : min_weld_size ⟨-1, inch⟩ ⟨-1, inch⟩ = Except.ok (some 0.1250) := by
    rw [min_weld_size_eval _ _ rfl rfl,
      if_pos (by norm_num [Quantity.canon, inch, min_def])]
  exact ⟨h, by rw [h]; simp⟩

/-- **C8, amended.** For every call to `min_weld_size` where
`min(t1, t2)` is negative, the function returns the value 0.1250 (the
first bracket `t_min < 0.25 in` captures all negative thicknesses); the
no-value fall-through is never taken. -/
theorem min_weld_size_negative (t1 t2 : Quantity)
    (ht1 : t1.u.dim = Dim.length) (ht2 : t2.u.dim = Dim.length)
    (hneg : min t1.canon t2.canon < 0) :
    min_weld_size t1 t2 = Except.ok (some 0.1250) := by
  rw [min_weld_size_eval t1 t2 ht1 ht2,
    if_pos (lt_trans hneg (by norm_num))]

/-- Witness for the amended C8 at `t1 = −2 in`, `t2 = 3 in`. -/
theorem min_weld_size_negative_witness :
    min_weld_size ⟨-2, inch⟩ ⟨3, inch⟩ = Except.ok (some 0.1250) :=
  min_weld_size_negative ⟨-2, inch⟩ ⟨3, inch⟩ rfl rfl
    (by norm_num [Quantity.canon, inch, min_def])

/-- Two quantities express the same physical value in (possibly)
different units: same dimension, same magnitude once converted to the
canonical unit. -/
def Quantity.equiv (q r : Quantity) : Prop :=
  q.u.dim = r.u.dim ∧ q.canon = r.canon

lemma Quantity.to_congr {q r : Quantity} (t : UnitOf) (h : q.equiv r) :
    q.to t = r.to t := by
  obtain ⟨hdim, hmag⟩ := h
  simp only [Quantity.canon] at hmag
  unfold Quantity.to
  rw [hdim]
  split_ifs with hc
  · rw [hmag]
  · rfl

/-- **C9.** Unit invariance for every function of the library: calling it
with the same physical quantities expressed in different but
dimensionally compatible units yields identical results, every input
being normalized to canonical units (inch, ksi) before arithmetic; and a
call fails with the dimensional-mismatch error whenever any supplied
quantity's physical dimension is incompatible with the expected one, at
whichever argument position. -/
theorem unit_invariance :
    (∀ (fu fu' : Quantity), fu.equiv fu' →
      nominal_fastener_strength fu = nominal_fastener_strength fu') ∧
    (∀ (fu : Quantity), fu.u.dim ≠ Dim.stress →
      nominal_fastener_strength fu =
        Except.error SteelError.dimensionMismatch) ∧
    (∀ (m : String) (d d' fu fu' : Quantity), d.equiv d' → fu.equiv fu' →
      shear_strength_bolts m d fu = shear_strength_bolts m d' fu') ∧
    (∀ (m : String) (d fu : Quantity),
      fu.u.dim ≠ Dim.stress ∨ d.u.dim ≠ Dim.length →
      shear_strength_bolts m d fu =
        Except.error SteelError.dimensionMismatch) ∧
    (∀ (m : String) (d d' t1 t1' u1 u1' t2 t2' u2 u2' : Quantity),
      d.equiv d' → t1.equiv t1' → u1.equiv u1' → t2.equiv t2' →
      u2.equiv u2' →
      bearing_strength_bolts m d t1 u1 t2 u2 =
        bearing_strength_bolts m d' t1' u1' t2' u2') ∧
    (∀ (m : String) (d t1 u1 t2 u2 : Quantity),
      d.u.dim ≠ Dim.length ∨ t1.u.dim ≠ Dim.length ∨
        t2.u.dim ≠ Dim.length ∨ u1.u.dim ≠ Dim.stress ∨
        u2.u.dim ≠ Dim.stress →
      bearing_strength_bolts m d t1 u1 t2 u2 =
        Except.error SteelError.dimensionMismatch) ∧
    (∀ (m : String) (d d' e1 e1' e2 e2' t1 t1' u1 u1' t2 t2' u2 u2' : Quantity),
      d.equiv d' → e1.equiv e1' → e2.equiv e2' → t1.equiv t1' →
      u1.equiv u1' → t2.equiv t2' → u2.equiv u2' →
      tearout_strength_bolts m d e1 e2 t1 u1 t2 u2 =
        tearout_strength_bolts m d' e1' e2' t1' u1' t2' u2') ∧
    (∀ (m : String) (d e1 e2 t1 u1 t2 u2 : Quantity),
      d.u.dim ≠ Dim.length ∨ e1.u.dim ≠ Dim.length ∨
        e2.u.dim ≠ Dim.length ∨ t1.u.dim ≠ Dim.length ∨
        t2.u.dim ≠ Dim.length ∨ u1.u.dim ≠ Dim.stress ∨
        u2.u.dim ≠ Dim.stress →
      tearout_strength_bolts m d e1 e2 t1 u1 t2 u2 =
        Except.error SteelError.dimensionMismatch) ∧
    (∀ (m : String) (d d' fu fu' : Quantity), d.equiv d' → fu.equiv fu' →
      tensile_strength_bolts m d fu = tensile_strength_bolts m d' fu') ∧
    (∀ (m : String) (d fu : Quantity),
      fu.u.dim ≠ Dim.stress ∨ d.u.dim ≠ Dim.length →
      tensile_strength_bolts m d fu =
        Except.error SteelError.dimensionMismatch) ∧
    (∀ (m : String) (t1 t1' l1 l1' y1 y1' t2 t2' l2 l2' y2 y2' : Quantity),
      t1.equiv t1' → l1.equiv l1' → y1.equiv y1' → t2.equiv t2' →
      l2.equiv l2' → y2.equiv y2' →
      connected_elem_shear_yield_str m t1 l1 y1 t2 l2 y2 =
        connected_elem_shear_yield_str m t1' l1' y1' t2' l2' y2') ∧
    (∀ (m : String) (t1 l1 y1 t2 l2 y2 : Quantity),
      t1.u.dim ≠ Dim.length ∨ l1.u.dim ≠ Dim.length ∨
        y1.u.dim ≠ Dim.stress ∨ t2.u.dim ≠ Dim.length ∨
        l2.u.dim ≠ Dim.length ∨ y2.u.dim ≠ Dim.stress →
      connected_elem_shear_yield_str m t1 l1 y1 t2 l2 y2 =
        Except.error SteelError.dimensionMismatch) ∧
    (∀ (m : String) (d d' : Quantity) (n : ℤ)
      (t1 t1' l1 l1' u1 u1' t2 t2' l2 l2' u2 u2' : Quantity),
      d.equiv d' → t1.equiv t1' → l1.equiv l1' → u1.equiv u1' →
      t2.equiv t2' → l2.equiv l2' → u2.equiv u2' →
      connected_elem_shear_rupture_str m d n t1 l1 u1 t2 l2 u2 =
        connected_elem_shear_rupture_str m d' n t1' l1' u1' t2' l2' u2') ∧
    (∀ (m : String) (d : Quantity) (n : ℤ) (t1 l1 u1 t2 l2 u2 : Quantity),
      d.u.dim ≠ Dim.length ∨ t1.u.dim ≠ Dim.length ∨
        l1.u.dim ≠ Dim.length ∨ u1.u.dim ≠ Dim.stress ∨
        t2.u.dim ≠ Dim.length ∨ l2.u.dim ≠ Dim.length ∨
        u2.u.dim ≠ Dim.stress →
      connected_elem_shear_rupture_str m d n t1 l1 u1 t2 l2 u2 =
        Except.error SteelError.dimensionMismatch) ∧
    (∀ (m : String) (t1 t1' l1 l1' y1 y1' t2 t2' l2 l2' y2 y2' : Quantity),
      t1.equiv t1' → l1.equiv l1' → y1.equiv y1' → t2.equiv t2' →
      l2.equiv l2' → y2.equiv y2' →
      connected_elem_tensile_yield_str m t1 l1 y1 t2 l2 y2 =
        connected_elem_tensile_yield_str m t1' l1' y1' t2' l2' y2') ∧
    (∀ (m : String) (t1 l1 y1 t2 l2 y2 : Quantity),
      t1.u.dim ≠ Dim.length ∨ l1.u.dim ≠ Dim.length ∨
        y1.u.dim ≠ Dim.stress ∨ t2.u.dim ≠ Dim.length ∨
        l2.u.dim ≠ Dim.length ∨ y2.u.dim ≠ Dim.stress →
      connected_elem_tensile_yield_str m t1 l1 y1 t2 l2 y2 =
        Except.error SteelError.dimensionMismatch) ∧
    (∀ (m : String) (d d' : Quantity) (n : ℤ) (lag : ℝ)
      (t1 t1' l1 l1' u1 u1' t2 t2' l2 l2' u2 u2' : Quantity),
      d.equiv d' → t1.equiv t1' → l1.equiv l1' → u1.equiv u1' →
      t2.equiv t2' → l2.equiv l2' → u2.equiv u2' →
      connected_elem_tensile_rupture_str m d n lag t1 l1 u1 t2 l2 u2 =
        connected_elem_tensile_rupture_str m d' n lag t1' l1' u1' t2' l2' u2') ∧
    (∀ (m : String) (d : Quantity) (n : ℤ) (lag : ℝ)
      (t1 l1 u1 t2 l2 u2 : Quantity),
      d.u.dim ≠ Dim.length ∨ t1.u.dim ≠ Dim.length ∨
        l1.u.dim ≠ Dim.length ∨ u1.u.dim ≠ Dim.stress ∨
        t2.u.dim ≠ Dim.length ∨ l2.u.dim ≠ Dim.length ∨
        u2.u.dim ≠ Dim.stress →
      connected_elem_tensile_rupture_str m d n lag t1 l1 u1 t2 l2 u2 =
        Except.error SteelError.dimensionMismatch) ∧
    (∀ (t1 t1' t2 t2' : Quantity), t1.equiv t1' → t2.equiv t2' →
      min_weld_size t1 t2 = min_weld_size t1' t2') ∧
    (∀ (t1 t2 : Quantity),
      t1.u.dim ≠ Dim.length ∨ t2.u.dim ≠ Dim.length →
      min_weld_size t1 t2 = Except.error SteelError.dimensionMismatch) ∧
    (∀ (m : String) (ws : ℝ) (sides : ℤ) (l l' : Quantity), l.equiv l' →
      weld_material_strength m ws l sides =
        weld_material_strength m ws l' sides) ∧
    (∀ (m : String) (ws : ℝ) (sides : ℤ) (l : Quantity),
      l.u.dim ≠ Dim.length →
      weld_material_strength m ws l sides =
        Except.error SteelError.dimensionMismatch) ∧
    (∀ (m : String) (ws : ℝ) (sides : ℤ)
      (l l' t1 t1' u1 u1' t2 t2' u2 u2' : Quantity),
      l.equiv l' → t1.equiv t1' → u1.equiv u1' → t2.equiv t2' →
      u2.equiv u2' →
      weld_rupture_strength m ws l sides t1 u1 t2 u2 =
        weld_rupture_strength m ws l' sides t1' u1' t2' u2') ∧
    (∀ (m : String) (ws : ℝ) (sides : ℤ) (l t1 u1 t2 u2 : Quantity),
      l.u.dim ≠ Dim.length ∨ t1.u.dim ≠ Dim.length ∨
        t2.u.dim ≠ Dim.length ∨ u1.u.dim ≠ Dim.stress ∨
        u2.u.dim ≠ Dim.stress →
      weld_rupture_strength m ws l sides t1 u1 t2 u2 =
        Except.error SteelError.dimensionMismatch) := by
  refine ⟨?_, ?_, ?_, ?_, ?_, ?_, ?_, ?_, ?_, ?_, ?_, ?_, ?_, ?_, ?_, ?_,
    ?_, ?_, ?_, ?_, ?_, ?_, ?_, ?_⟩
  · intro fu fu' hfu
    unfold nominal_fastener_strength
    simp only [Quantity.to_congr ksi hfu]
  · intro fu h
    simp [nominal_fastener_strength, Quantity.to, ksi, h, Bind.bind,
      Except.bind]
  · intro m d d' fu fu' hd hfu
    unfold shear_strength_bolts nominal_fastener_strength
    simp only [Quantity.to_congr inch hd, Quantity.to_congr ksi hfu]
  · intro m d fu h
    by_cases hfu : fu.u.dim = Dim.stress
    · by_cases hd : d.u.dim = Dim.length
      · simp_all
      · simp [shear_strength_bolts, nominal_fastener_strength, Quantity.to,
          inch, ksi, hfu, hd, Bind.bind, Except.bind, Pure.pure, Except.pure]
    · simp [shear_strength_bolts, nominal_fastener_strength, Quantity.to,
        inch, ksi, hfu, Bind.bind, Except.bind]
  · intro m d d' t1 t1' u1 u1' t2 t2' u2 u2' hd ht1 hu1 ht2 hu2
    unfold bearing_strength_bolts
    simp only [Quantity.to_congr inch hd, Quantity.to_congr inch ht1,
      Quantity.to_congr inch ht2, Quantity.to_congr ksi hu1,
      Quantity.to_congr ksi hu2]
  · intro m d t1 u1 t2 u2 h
    by_cases hd : d.u.dim = Dim.length
    · by_cases h1 : t1.u.dim = Dim.length
      · by_cases h2 : t2.u.dim = Dim.length
        · by_cases h3 : u1.u.dim = Dim.stress
          · by_cases h4 : u2.u.dim = Dim.stress
            · simp_all
            · simp [bearing_strength_bolts, Quantity.to, inch, ksi, hd, h1,
                h2, h3, h4, Bind.bind, Except.bind]
          · simp [bearing_strength_bolts, Quantity.to, inch, ksi, hd, h1, h2,
              h3, Bind.bind, Except.bind]
        · simp [bearing_strength_bolts, Quantity.to, inch, ksi, hd, h1, h2,
            Bind.bind, Except.bind]
      · simp [bearing_strength_bolts, Quantity.to, inch, ksi, hd, h1,
          Bind.bind, Except.bind]
    · simp [bearing_strength_bolts, Quantity.to, inch, ksi, hd, Bind.bind,
        Except.bind]
  · intro m d d' e1 e1' e2 e2' t1 t1' u1 u1' t2 t2' u2 u2' hd he1 he2 ht1 hu1
      ht2 hu2
    unfold tearout_strength_bolts
    simp only [Quantity.to_congr inch hd, Quantity.to_congr inch he1,
      Quantity.to_congr inch he2, Quantity.to_congr inch ht1,
      Quantity.to_congr inch ht2, Quantity.to_congr ksi hu1,
      Quantity.to_congr ksi hu2]
  · intro m d e1 e2 t1 u1 t2 u2 h
    by_cases hd : d.u.dim = Dim.length
    · by_cases h1 : e1.u.dim = Dim.length
      · by_cases h2 : e2.u.dim = Dim.length
        · by_cases h3 : t1.u.dim = Dim.length
          · by_cases h4 : t2.u.dim = Dim.length
            · by_cases h5 : u1.u.dim = Dim.stress
              · by_cases h6 : u2.u.dim = Dim.stress
                · simp_all
                · simp [tearout_strength_bolts, Quantity.to, inch, ksi, hd,
                    h1, h2, h3, h4, h5, h6, Bind.bind, Except.bind]
              · simp [tearout_strength_bolts, Quantity.to, inch, ksi, hd, h1,
                  h2, h3, h4, h5, Bind.bind, Except.bind]
            · simp [tearout_strength_bolts, Quantity.to, inch, ksi, hd, h1,
                h2, h3, h4, Bind.bind, Except.bind]
          · simp [tearout_strength_bolts, Quantity.to, inch, ksi, hd, h1, h2,
              h3, Bind.bind, Except.bind]
        · simp [tearout_strength_bolts, Quantity.to, inch, ksi, hd, h1, h2,
            Bind.bind, Except.bind]
      · simp [tearout_strength_bolts, Quantity.to, inch, ksi, hd, h1,
          Bind.bind, Except.bind]
    · simp [tearout_strength_bolts, Quantity.to, inch, ksi, hd, Bind.bind,
        Except.bind]
  · intro m d d' fu fu' hd hfu
    unfold tensile_strength_bolts nominal_fastener_strength
    simp only [Quantity.to_congr inch hd, Quantity.to_congr ksi hfu]
  · intro m d fu h
    by_cases hfu : fu.u.dim = Dim.stress
    · by_cases hd : d.u.dim = Dim.length
      · simp_all
      · simp [tensile_strength_bolts, nominal_fastener_strength, Quantity.to,
          inch, ksi, hfu, hd, Bind.bind, Except.bind, Pure.pure, Except.pure]
    · simp [tensile_strength_bolts, nominal_fastener_strength, Quantity.to,
        inch, ksi, hfu, Bind.bind, Except.bind]
  · intro m t1 t1' l1 l1' y1 y1' t2 t2' l2 l2' y2 y2' ht1 hl1 hy1 ht2 hl2 hy2
    unfold connected_elem_shear_yield_str
    simp only [Quantity.to_congr inch ht1, Quantity.to_congr inch hl1,
      Quantity.to_congr inch ht2, Quantity.to_congr inch hl2,
      Quantity.to_congr ksi hy1, Quantity.to_congr ksi hy2]
  · intro m t1 l1 y1 t2 l2 y2 h
    by_cases h1 : t1.u.dim = Dim.length
    · by_cases h2 : l1.u.dim = Dim.length
      · by_cases h3 : y1.u.dim = Dim.stress
        · by_cases h4 : t2.u.dim = Dim.length
          · by_cases h5 : l2.u.dim = Dim.length
            · by_cases h6 : y2.u.dim = Dim.stress
              · simp_all
              · simp [connected_elem_shear_yield_str, Quantity.to, inch, ksi,
                  h1, h2, h3, h4, h5, h6, Bind.bind, Except.bind]
            · simp [connected_elem_shear_yield_str, Quantity.to, inch, ksi,
                h1, h2, h3, h4, h5, Bind.bind, Except.bind]
          · simp [connected_elem_shear_yield_str, Quantity.to, inch, ksi, h1,
              h2, h3, h4, Bind.bind, Except.bind]
        · simp [connected_elem_shear_yield_str, Quantity.to, inch, ksi, h1,
            h2, h3, Bind.bind, Except.bind]
      · simp [connected_elem_shear_yield_str, Quantity.to, inch, ksi, h1, h2,
          Bind.bind, Except.bind]
    · simp [connected_elem_shear_yield_str, Quantity.to, inch, ksi, h1,
        Bind.bind, Except.bind]
  · intro m d d' n t1 t1' l1 l1' u1 u1' t2 t2' l2 l2' u2 u2' hd ht1 hl1 hu1
      ht2 hl2 hu2
    unfold connected_elem_shear_rupture_str
    simp only [Quantity.to_congr inch hd, Quantity.to_congr inch ht1,
      Quantity.to_congr inch hl1, Quantity.to_congr inch ht2,
      Quantity.to_congr inch hl2, Quantity.to_congr ksi hu1,
      Quantity.to_congr ksi hu2]
  · intro m d n t1 l1 u1 t2 l2 u2 h
    by_cases hd : d.u.dim = Dim.length
    · by_cases h1 : t1.u.dim = Dim.length
      · by_cases h2 : l1.u.dim = Dim.length
        · by_cases h3 : u1.u.dim = Dim.stress
          · by_cases h4 : t2.u.dim = Dim.length
            · by_cases h5 : l2.u.dim = Dim.length
              · by_cases h6 : u2.u.dim = Dim.stress
                · simp_all
                · simp [connected_elem_shear_rupture_str, Quantity.to, inch,
                    ksi, hd, h1, h2, h3, h4, h5, h6, Bind.bind, Except.bind]
              · simp [connected_elem_shear_rupture_str, Quantity.to, inch,
                  ksi, hd, h1, h2, h3, h4, h5, Bind.bind, Except.bind]
            · simp [connected_elem_shear_rupture_str, Quantity.to, inch, ksi,
                hd, h1, h2, h3, h4, Bind.bind, Except.bind]
          · simp [connected_elem_shear_rupture_str, Quantity.to, inch, ksi,
              hd, h1, h2, h3, Bind.bind, Except.bind]
        · simp [connected_elem_shear_rupture_str, Quantity.to, inch, ksi, hd,
            h1, h2, Bind.bind, Except.bind]
      · simp [connected_elem_shear_rupture_str, Quantity.to, inch, ksi, hd,
          h1, Bind.bind, Except.bind]
    · simp [connected_elem_shear_rupture_str, Quantity.to, inch, ksi, hd,
        Bind.bind, Except.bind]
  · intro m t1 t1' l1 l1' y1 y1' t2 t2' l2 l2' y2 y2' ht1 hl1 hy1 ht2 hl2 hy2
    unfold connected_elem_tensile_yield_str
    simp only [Quantity.to_congr inch ht1, Quantity.to_congr inch hl1,
      Quantity.to_congr inch ht2, Quantity.to_congr inch hl2,
      Quantity.to_congr ksi hy1, Quantity.to_congr ksi hy2]
  · intro m t1 l1 y1 t2 l2 y2 h
    by_cases h1 : t1.u.dim = Dim.length
    · by_cases h2 : l1.u.dim = Dim.length
      · by_cases h3 : y1.u.dim = Dim.stress
        · by_cases h4 : t2.u.dim = Dim.length
          · by_cases h5 : l2.u.dim = Dim.length
            · by_cases h6 : y2.u.dim = Dim.stress
              · simp_all
              · simp [connected_elem_tensile_yield_str, Quantity.to, inch,
                  ksi, h1, h2, h3, h4, h5, h6, Bind.bind, Except.bind]
            · simp [connected_elem_tensile_yield_str, Quantity.to, inch, ksi,
                h1, h2, h3, h4, h5, Bind.bind, Except.bind]
          · simp [connected_elem_tensile_yield_str, Quantity.to, inch, ksi,
              h1, h2, h3, h4, Bind.bind, Except.bind]
        · simp [connected_elem_tensile_yield_str, Quantity.to, inch, ksi, h1,
            h2, h3, Bind.bind, Except.bind]
      · simp [connected_elem_tensile_yield_str, Quantity.to, inch, ksi, h1,
          h2, Bind.bind, Except.bind]
    · simp [connected_elem_tensile_yield_str, Quantity.to, inch, ksi, h1,
        Bind.bind, Except.bind]
  · intro m d d' n lag t1 t1' l1 l1' u1 u1' t2 t2' l2 l2' u2 u2' hd ht1 hl1
      hu1 ht2 hl2 hu2
    unfold connected_elem_tensile_rupture_str
    simp only [Quantity.to_congr inch hd, Quantity.to_congr inch ht1,
      Quantity.to_congr inch hl1, Quantity.to_congr inch ht2,
      Quantity.to_congr inch hl2, Quantity.to_congr ksi hu1,
      Quantity.to_congr ksi hu2]
  · intro m d n lag t1 l1 u1 t2 l2 u2 h
    by_cases hd : d.u.dim = Dim.length
    · by_cases h1 : t1.u.dim = Dim.length
      · by_cases h2 : l1.u.dim = Dim.length
        · by_cases h3 : u1.u.dim = Dim.stress
          · by_cases h4 : t2.u.dim = Dim.length
            · by_cases h5 : l2.u.dim = Dim.length
              · by_cases h6 : u2.u.dim = Dim.stress
                · simp_all
                · simp [connected_elem_tensile_rupture_str, Quantity.to, inch,
                    ksi, hd, h1, h2, h3, h4, h5, h6, Bind.bind, Except.bind]
              · simp [connected_elem_tensile_rupture_str, Quantity.to, inch,
                  ksi, hd, h1, h2, h3, h4, h5, Bind.bind, Except.bind]
            · simp [connected_elem_tensile_rupture_str, Quantity.to, inch,
                ksi, hd, h1, h2, h3, h4, Bind.bind, Except.bind]
          · simp [connected_elem_tensile_rupture_str, Quantity.to, inch, ksi,
              hd, h1, h2, h3, Bind.bind, Except.bind]
        · simp [connected_elem_tensile_rupture_str, Quantity.to, inch, ksi,
            hd, h1, h2, Bind.bind, Except.bind]
      · simp [connected_elem_tensile_rupture_str, Quantity.to, inch, ksi, hd,
          h1, Bind.bind, Except.bind]
    · simp [connected_elem_tensile_rupture_str, Quantity.to, inch, ksi, hd,
        Bind.bind, Except.bind]
  · intro t1 t1' t2 t2' ht1 ht2
    unfold min_weld_size
    simp only [Quantity.to_congr inch ht1, Quantity.to_congr inch ht2]
  · intro t1 t2 h
    by_cases h1 : t1.u.dim = Dim.length
    · by_cases h2 : t2.u.dim = Dim.length
      · simp_all
      · simp [min_weld_size, Quantity.to, inch, h1, h2, Bind.bind,
          Except.bind]
    · simp [min_weld_size, Quantity.to, inch, h1, Bind.bind, Except.bind]
  · intro m ws sides l l' hl
    unfold weld_material_strength
    simp only [Quantity.to_congr inch hl]
  · intro m ws sides l h
    simp [weld_material_strength, Quantity.to, inch, h, Bind.bind,
      Except.bind]
  · intro m ws sides l l' t1 t1' u1 u1' t2 t2' u2 u2' hl ht1 hu1 ht2 hu2
    unfold weld_rupture_strength
    simp only [Quantity.to_congr inch hl, Quantity.to_congr inch ht1,
      Quantity.to_congr inch ht2, Quantity.to_congr ksi hu1,
      Quantity.to_congr ksi hu2]
  · intro m ws sides l t1 u1 t2 u2 h
    by_cases hl : l.u.dim = Dim.length
    · by_cases h1 : t1.u.dim = Dim.length
      · by_cases h2 : t2.u.dim = Dim.length
        · by_cases h3 : u1.u.dim = Dim.stress
          · by_cases h4 : u2.u.dim = Dim.stress
            · simp_all
            · simp [weld_rupture_strength, Quantity.to, inch, ksi, hl, h1,
                h2, h3, h4, Bind.bind, Except.bind]
          · simp [weld_rupture_strength, Quantity.to, inch, ksi, hl, h1, h2,
              h3, Bind.bind, Except.bind]
        · simp [weld_rupture_strength, Quantity.to, inch, ksi, hl, h1, h2,
            Bind.bind, Except.bind]
      · simp [weld_rupture_strength, Quantity.to, inch, ksi, hl, h1,
          Bind.bind, Except.bind]
    · simp [weld_rupture_strength, Quantity.to, inch, ksi, hl, Bind.bind,
        Except.bind]

/-- Witness for C9: bolt diameter and thicknesses in millimeters (and a
part stress in psi) give exactly the result of the same call in inches
and ksi, by applying `unit_invariance`; 19.05 mm = 0.75 in, 12.7 mm =
0.5 in, 9.525 mm = 0.375 in, 58000 psi = 58 ksi. -/
theorem unit_invariance_witness :
    bearing_strength_bolts "ASD" ⟨19.05, millimeter⟩ ⟨12.7, millimeter⟩
        ⟨58, ksi⟩ ⟨9.525, millimeter⟩ ⟨58000, psi⟩ =
      bearing_strength_bolts "ASD" ⟨0.75, inch⟩ ⟨0.5, inch⟩ ⟨58, ksi⟩
        ⟨0.375, inch⟩ ⟨58, ksi⟩ :=
  unit_invariance.2.2.2.2.1 "ASD" _ _ _ _ _ _ _ _ _ _
    ⟨rfl, by norm_num [Quantity.canon, millimeter, inch]⟩
    ⟨rfl, by norm_num [Quantity.canon, millimeter, inch]⟩
    ⟨rfl, by norm_num [Quantity.canon, ksi]⟩
    ⟨rfl, by norm_num [Quantity.canon, millimeter, inch]⟩
    ⟨rfl, by norm_num [Quantity.canon, psi, ksi]⟩

/-- **C10.** Exchanging the part-1 and part-2 argument groups swaps the
two components of every pair-returning function (bolt bearing, bolt
tearout, element shear yield, shear rupture, tensile yield, tensile
rupture) and leaves the single-valued `min_weld_size` and
`weld_rupture_strength` unchanged, the shared inputs (method, diameter,
bolt count, shear lag, weld geometry) staying fixed. -/
theorem part_exchange_symmetry (m : String) (d wl : Quantity) (n sides : ℤ)
    (lag ws : ℝ) (e1 e2 t1 t2 l1 l2 y1 y2 u1 u2 : Quantity)
    (hd : d.u.dim = Dim.length) (hwl : wl.u.dim = Dim.length)
    (he1 : e1.u.dim = Dim.length) (he2 : e2.u.dim = Dim.length)
    (ht1 : t1.u.dim = Dim.length) (ht2 : t2.u.dim = Dim.length)
    (hl1 : l1.u.dim = Dim.length) (hl2 : l2.u.dim = Dim.length)
    (hy1 : y1.u.dim = Dim.stress) (hy2 : y2.u.dim = Dim.stress)
    (hu1 : u1.u.dim = Dim.stress) (hu2 : u2.u.dim = Dim.stress) :
    bearing_strength_bolts m d t2 u2 t1 u1 =
      (bearing_strength_bolts m d t1 u1 t2 u2).map Prod.swap ∧
    tearout_strength_bolts m d e2 e1 t2 u2 t1 u1 =
      (tearout_strength_bolts m d e1 e2 t1 u1 t2 u2).map Prod.swap ∧
    connected_elem_shear_yield_str m t2 l2 y2 t1 l1 y1 =
      (connected_elem_shear_yield_str m t1 l1 y1 t2 l2 y2).map Prod.swap ∧
    connected_elem_shear_rupture_str m d n t2 l2 u2 t1 l1 u1 =
      (connected_elem_shear_rupture_str m d n t1 l1 u1 t2 l2 u2).map Prod.swap ∧
    connected_elem_tensile_yield_str m t2 l2 y2 t1 l1 y1 =
      (connected_elem_tensile_yield_str m t1 l1 y1 t2 l2 y2).map Prod.swap ∧
    connected_elem_tensile_rupture_str m d n lag t2 l2 u2 t1 l1 u1 =
      (connected_elem_tensile_rupture_str m d n lag t1 l1 u1 t2 l2 u2).map
        Prod.swap ∧
    min_weld_size t2 t1 = min_weld_size t1 t2 ∧
    weld_rupture_strength m ws wl sides t2 u2 t1 u1 =
      weld_rupture_strength m ws wl sides t1 u1 t2 u2 := by
  refine ⟨?_, ?_, ?_, ?_, ?_, ?_, ?_, ?_⟩
  · rw [bearing_strength_bolts_eval m d t2 u2 t1 u1 hd ht2 hu2 ht1 hu1,
      bearing_strength_bolts_eval m d t1 u1 t2 u2 hd ht1 hu1 ht2 hu2]
    by_cases hm1 : m = "ASD" <;> by_cases hm2 : m = "LRFD" <;>
      simp [hm1, hm2, Except.map, Prod.swap]
  · rw [tearout_strength_bolts_eval m d e2 e1 t2 u2 t1 u1 hd he2 he1 ht2 hu2
      ht1 hu1,
      tearout_strength_bolts_eval m d e1 e2 t1 u1 t2 u2 hd he1 he2 ht1 hu1
      ht2 hu2]
    by_cases hm1 : m = "ASD" <;> by_cases hm2 : m = "LRFD" <;>
      simp [hm1, hm2, Except.map, Prod.swap]
  · rw [connected_elem_shear_yield_str_eval m t2 l2 y2 t1 l1 y1 ht2 hl2 hy2
      ht1 hl1 hy1,
      connected_elem_shear_yield_str_eval m t1 l1 y1 t2 l2 y2 ht1 hl1 hy1
      ht2 hl2 hy2]
    by_cases hm1 : m = "ASD" <;> by_cases hm2 : m = "LRFD" <;>
      simp [hm1, hm2, Except.map, Prod.swap]
  · rw [connected_elem_shear_rupture_str_eval m d n t2 l2 u2 t1 l1 u1 hd ht2
      hl2 hu2 ht1 hl1 hu1,
      connected_elem_shear_rupture_str_eval m d n t1 l1 u1 t2 l2 u2 hd ht1
      hl1 hu1 ht2 hl2 hu2]
    by_cases hm1 : m = "ASD" <;> by_cases hm2 : m = "LRFD" <;>
      simp [hm1, hm2, Except.map, Prod.swap]
  · rw [connected_elem_tensile_yield_str_eval m t2 l2 y2 t1 l1 y1 ht2 hl2 hy2
      ht1 hl1 hy1,
      connected_elem_tensile_yield_str_eval m t1 l1 y1 t2 l2 y2 ht1 hl1 hy1
      ht2 hl2 hy2]
    by_cases hm1 : m = "ASD" <;> by_cases hm2 : m = "LRFD" <;>
      simp [hm1, hm2, Except.map, Prod.swap]
  · rw [connected_elem_tensile_rupture_str_eval m d n lag t2 l2 u2 t1 l1 u1
      hd ht2 hl2 hu2 ht1 hl1 hu1,
      connected_elem_tensile_rupture_str_eval m d n lag t1 l1 u1 t2 l2 u2
      hd ht1 hl1 hu1 ht2 hl2 hu2]
    by_cases hm1 : m = "ASD" <;> by_cases hm2 : m = "LRFD" <;>
      simp [hm1, hm2, Except.map, Prod.swap]
  · rw [min_weld_size_eval t2 t1 ht2 ht1, min_weld_size_eval t1 t2 ht1 ht2,
      min_comm t2.canon t1.canon]
  · by_cases hs1 : sides = 1
    · subst hs1
      rw [weld_rupture_strength_eval m ws wl 1 t2 u2 t1 u1 hwl ht2 ht1 hu2 hu1
        _ _ (Or.inl ⟨rfl, rfl, rfl⟩),
        weld_rupture_strength_eval m ws wl 1 t1 u1 t2 u2 hwl ht1 ht2 hu1 hu2
        _ _ (Or.inl ⟨rfl, rfl, rfl⟩)]
      congr 1
      funext w
      exact if_congr or_comm (by rw [min_comm]) rfl
    · by_cases hs2 : sides = 2
      · subst hs2
        rw [weld_rupture_strength_eval m ws wl 2 t2 u2 t1 u1 hwl ht2 ht1 hu2
          hu1 _ _ (Or.inr ⟨rfl, rfl, rfl⟩),
          weld_rupture_strength_eval m ws wl 2 t1 u1 t2 u2 hwl ht1 ht2 hu1 hu2
          _ _ (Or.inr ⟨rfl, rfl, rfl⟩)]
        congr 1
        funext w
        exact if_congr or_comm (by rw [min_comm]) rfl
      · rw [weld_rupture_strength_unbound m ws wl sides t2 u2 t1 u1 hwl ht2
          ht1 hu2 hu1 hs1 hs2,
          weld_rupture_strength_unbound m ws wl sides t1 u1 t2 u2 hwl ht1 ht2
          hu1 hu2 hs1 hs2]

/-- Witness for C10: swapping the two parts of a concrete bearing call
swaps the returned pair, by applying `part_exchange_symmetry`. -/
theorem part_exchange_symmetry_witness :
    bearing_strength_bolts "ASD" ⟨0.75, inch⟩ ⟨0.375, inch⟩ ⟨65, ksi⟩
        ⟨0.5, inch⟩ ⟨58, ksi⟩ =
      (bearing_strength_bolts "ASD" ⟨0.75, inch⟩ ⟨0.5, inch⟩ ⟨58, ksi⟩
        ⟨0.375, inch⟩ ⟨65, ksi⟩).map Prod.swap :=
  (part_exchange_symmetry "ASD" ⟨0.75, inch⟩ ⟨6, inch⟩ 2 1 0.8 4
    ⟨1.5, inch⟩ ⟨1.5, inch⟩ ⟨0.5, inch⟩ ⟨0.375, inch⟩ ⟨6, inch⟩ ⟨6, inch⟩
    ⟨36, ksi⟩ ⟨36, ksi⟩ ⟨58, ksi⟩ ⟨65, ksi⟩ rfl rfl rfl rfl rfl rfl rfl rfl
    rfl rfl rfl rfl).1

end

end Steel
